import Mathlib

/-!
Verification development for the sustainability-regulation tracker
(`sustainability_agent.py`, `sustainability_agent_enhanced.py`,
`generate_email_content.py`, `generate_email_content_enhanced.py`).

The Python program keeps regulatory updates in a SQLite table

  CREATE TABLE IF NOT EXISTS updates (
      id INTEGER PRIMARY KEY AUTOINCREMENT,
      source TEXT NOT NULL, title TEXT NOT NULL, link TEXT NOT NULL,
      date TEXT NOT NULL, summary TEXT NOT NULL,
      [seven further nullable metadata columns in the enhanced schema],
      UNIQUE(source, title, link))

and inserts rows one at a time inside `try ... except sqlite3.IntegrityError:
continue`.  We embed the stored table as the list of its rows in insertion
order.  An insert succeeds exactly when the five NOT NULL columns are all
non-NULL and no stored row shares the (source, title, link) triple; any
violated constraint raises `IntegrityError`, which `store_updates` catches
and turns into a skip.  Renderers are embedded as pure functions from the
queried row list (and the generated-timestamp string, the only
non-deterministic input) to the produced text.
-/

set_option maxRecDepth 8000

namespace Sustainability

/-- One `UpdateItem` as handed to the store layer.  The Python dataclass
declares all fields as `str`, but nothing stops a caller from passing
`None`; SQLite stores `None` as NULL and the first five columns are
NOT NULL.  We therefore model every field as `Option String`, `none`
playing the role of Python's `None`; a record with `none` in a required
field is exactly the spec's "malformed record (missing required field)".
The seven extended fields exist only in the enhanced schema and are
nullable there. -/
structure UpdateItem where
  source : Option String
  title : Option String
  link : Option String
  date : Option String
  summary : Option String
  first_published : Option String
  last_updated : Option String
  compliance_deadline : Option String
  significant_changes : Option String
  impact_level : Option String
  affected_sectors : Option String
  jurisdiction : Option String
deriving DecidableEq

/-- The natural key `(source, title, link)` of the UNIQUE constraint. -/
def naturalKey (i : UpdateItem) : Option String × Option String × Option String :=
  (i.source, i.title, i.link)

/-- A record satisfies the five NOT NULL column constraints of the
`updates` table (`source`, `title`, `link`, `date`, `summary`). -/
def wellFormed (i : UpdateItem) : Bool :=
  i.source.isSome && i.title.isSome && i.link.isSome && i.date.isSome && i.summary.isSome

/-- Some stored row already carries the natural key of `i`
(the UNIQUE(source, title, link) check performed by SQLite). -/
def keyPresent (stored : List UpdateItem) (i : UpdateItem) : Prop :=
  naturalKey i ∈ stored.map naturalKey

instance (stored : List UpdateItem) (i : UpdateItem) : Decidable (keyPresent stored i) :=
  inferInstanceAs (Decidable (naturalKey i ∈ stored.map naturalKey))

/-- The `INSERT` of one row succeeds: all NOT NULL columns present and
the natural key fresh.  Otherwise SQLite raises `IntegrityError`, which
`store_updates` catches. -/
def insertOk (stored : List UpdateItem) (i : UpdateItem) : Prop :=
  wellFormed i = true ∧ ¬ keyPresent stored i

instance (stored : List UpdateItem) (i : UpdateItem) : Decidable (insertOk stored i) :=
  inferInstanceAs (Decidable (wellFormed i = true ∧ ¬ keyPresent stored i))

/-- `store_updates(conn, items)` of both agents: attempt each insert in
input order, catch `IntegrityError` (duplicate natural key or NULL in a
NOT NULL column) as a silent skip, and collect the successfully inserted
records.  Returns (stored rows after the run, the `new_items` list the
Python function returns).  The basic and the enhanced agent differ only
in how many columns the INSERT lists; the UNIQUE and NOT NULL behaviour
embedded here is identical for both. -/
def store_updates : List UpdateItem → List UpdateItem → List UpdateItem × List UpdateItem
  | stored, [] => (stored, [])
  | stored, i :: rest =>
    if insertOk stored i then
      let p := store_updates (stored ++ [i]) rest
      (p.1, i :: p.2)
    else
      store_updates stored rest

/-- Spec-side description of `insert_all` (§4.1 of the spec): walk the
input once, keeping the set of natural keys already stored; a record
whose key is fresh is returned (and its key becomes stored), a record
whose key is already present is dropped.  `seen` starts as the keys of
the store.  This definition follows the spec's words and is compared
with `store_updates` in the C1 theorem. -/
def newBySpec : List (Option String × Option String × Option String) → List UpdateItem → List UpdateItem
  | _, [] => []
  | seen, i :: rest =>
    if naturalKey i ∈ seen then newBySpec seen rest
    else i :: newBySpec (seen ++ [naturalKey i]) rest

/-- One operation against the database file: `initialise_db` (the
`CREATE TABLE IF NOT EXISTS` is idempotent and never touches stored
rows) or a `store_updates` batch. -/
inductive StoreOp where
  | init
  | insertBatch (items : List UpdateItem)

/-- Effect of one operation on the stored rows. -/
def applyOp (stored : List UpdateItem) : StoreOp → List UpdateItem
  | .init => stored
  | .insertBatch items => (store_updates stored items).1

/-- Stored rows after running a sequence of operations against a fresh
database file. -/
def runOps (ops : List StoreOp) : List UpdateItem :=
  ops.foldl applyOp []

/-- Outcome of one registered producer: the record list it returned, or
the exception it raised (carried as a message string). -/
def producerContribution (r : Except String (List UpdateItem)) : List UpdateItem :=
  match r with
  | .ok items => items
  | .error _ => []

/-- Loop body of `gather_updates`: `collected.extend(items)` on success,
`print` and `continue` on an exception. -/
def gatherStep (collected : List UpdateItem) (p : String × Except String (List UpdateItem)) :
    List UpdateItem :=
  match p.2 with
  | .ok items => collected ++ items
  | .error _ => collected

/-- `gather_updates()` of both agents: iterate the `SOURCES` registry in
registration order (Python dicts preserve insertion order), run each
producer inside `try ... except Exception: continue`, and accumulate the
outputs.  A producer is embedded by its name together with the outcome
of calling it. -/
def gather_updates (sources : List (String × Except String (List UpdateItem))) :
    List UpdateItem :=
  sources.foldl gatherStep []

/-- Python `str.strip()`: drop leading and trailing whitespace. -/
def pyStrip (s : String) : String :=
  String.mk (((s.data.dropWhile Char.isWhitespace).reverse.dropWhile Char.isWhitespace).reverse)

/-- A nonempty all-digit character list. -/
def isDigits (cs : List Char) : Bool :=
  !cs.isEmpty && cs.all Char.isDigit

/-- Decimal value of a digit list. -/
def natOfDigits (cs : List Char) : Nat :=
  cs.foldl (fun n c => 10 * n + (c.toNat - 48)) 0

/-- Python's `int(s)` builtin on a string: strips whitespace, accepts an
optional sign followed by digits, and raises `ValueError` (modelled as
`none`) on anything else. -/
def pyInt? (s : String) : Option Int :=
  match (pyStrip s).data with
  | [] => none
  | c :: rest =>
    if c = '-' then
      if isDigits rest then some (-(natOfDigits rest : Int)) else none
    else if c = '+' then
      if isDigits rest then some ((natOfDigits rest : Int)) else none
    else
      if isDigits (c :: rest) then some ((natOfDigits (c :: rest) : Int)) else none

/-- Python truthiness of an optional environment string: `None` and the
empty string are falsy. -/
def pyTruthy (o : Option String) : Bool :=
  match o with
  | none => false
  | some s => !s.data.isEmpty

/-- The SMTP environment variables `send_email` reads
(`SMTP_FROM` is read only by `compose_email`). -/
structure SmtpEnv where
  host : Option String
  port : Option String
  user : Option String
  password : Option String
  recipients : Option String
deriving DecidableEq

/-- How a call to `send_email` terminates. -/
inductive SendOutcome where
  | raised
  | skipped
  | sent
  | reportedFailure
deriving DecidableEq

/-- `send_email(message)` of both agents.  The function first evaluates
`int(os.environ.get("SMTP_PORT", "0"))` — an uncaught `ValueError`
(outcome `raised`) when the variable is set to a non-integer string —
then checks `all([host, port, user, password, recipients])` (Python
truthiness: `None`, `""` and `0` are falsy) and silently returns when it
fails, and finally runs the SMTP transport inside
`try ... except Exception`, printing instead of propagating on failure.
`transportOk` abstracts whether connection, STARTTLS, login and send all
succeed. -/
def send_email (env : SmtpEnv) (transportOk : Bool) : SendOutcome :=
  match pyInt? (env.port.getD "0") with
  | none => .raised
  | some port =>
    if pyTruthy env.host && !(port == 0) && pyTruthy env.user
        && pyTruthy env.password && pyTruthy env.recipients then
      if transportOk then .sent else .reportedFailure
    else
      .skipped

/-- Concatenation of a list of strings (the repeated `html += piece`
accumulation and `"".join`-style flushes of the renderers). -/
def concatAll : List String → String
  | [] => ""
  | s :: ss => s ++ concatAll ss

/-- Python's `"\n".join(lines)`. -/
def joinLines : List String → String
  | [] => ""
  | [l] => l
  | l :: ls => l ++ "\n" ++ joinLines ls

/-- A row of the basic 5-column `updates` table as returned by
`SELECT source, title, link, date, summary FROM updates`; every column
is NOT NULL, so each field is a plain string. -/
structure DbRow where
  source : String
  title : String
  link : String
  date : String
  summary : String
deriving DecidableEq

/-- Effect of the escaping chain
`.replace("&", "&amp;").replace("<", "&lt;").replace(">", "&gt;")`
on one character.  The three patterns are distinct single characters and
no replacement text contains a later pattern character that was not
already processed, so the chain rewrites each input character
independently; we embed that per-character action directly. -/
def escapeChar (c : Char) : String :=
  if c = '&' then "&amp;"
  else if c = '<' then "&lt;"
  else if c = '>' then "&gt;"
  else String.mk [c]

/-- The escaping chain applied to a whole field. -/
def escapeHtml (s : String) : String :=
  concatAll (s.data.map escapeChar)

/-- `"=" * 80`. -/
def eqBanner : String := String.mk (List.replicate 80 '=')

/-- `"-" * 80`. -/
def dashBanner : String := String.mk (List.replicate 80 '-')

/-- Python `s.split()` (no argument): split on runs of whitespace,
dropping empty pieces. -/
def pySplitWsAux : List Char → List Char → List String
  | [], acc => if acc.isEmpty then [] else [String.mk acc.reverse]
  | c :: cs, acc =>
    if c.isWhitespace then
      if acc.isEmpty then pySplitWsAux cs [] else String.mk acc.reverse :: pySplitWsAux cs []
    else
      pySplitWsAux cs (c :: acc)

/-- Python `s.split()` on a string. -/
def pySplitWs (s : String) : List String :=
  pySplitWsAux s.data []

/-- Python `s.split(sep)` for a single-character separator: keeps empty
pieces, as Python does. -/
def pySplitCharAux (sep : Char) : List Char → List Char → List String
  | [], acc => [String.mk acc.reverse]
  | c :: cs, acc =>
    if c = sep then String.mk acc.reverse :: pySplitCharAux sep cs []
    else pySplitCharAux sep cs (c :: acc)

/-- Python `s.split(sep)` on a string, single-character separator. -/
def pySplitChar (sep : Char) (s : String) : List String :=
  pySplitCharAux sep s.data []

/-- One step of the word-wrap loop of `generate_plain_text_email`:
state is (emitted lines, current `line_buffer`).  Mirrors

    if len(line_buffer) + len(word) + 1 > 80:
        lines.append(line_buffer); line_buffer = "   " + word
    else:
        line_buffer += (" " if line_buffer != "   " else "") + word
-/
def wrapStep (acc : List String × String) (word : String) : List String × String :=
  if acc.2.length + word.length + 1 > 80 then
    (acc.1 ++ [acc.2], "   " ++ word)
  else
    (acc.1, acc.2 ++ (if acc.2 = "   " then "" else " ") ++ word)

/-- The summary word-wrap of `generate_plain_text_email`: run the loop
over `summary.split()` starting from the buffer `"   "`, then flush the
buffer if `line_buffer.strip()` is truthy. -/
def wrapSummary (summary : String) : List String :=
  let r := (pySplitWs summary).foldl wrapStep ([], "   ")
  if !(pyStrip r.2).data.isEmpty then r.1 ++ [r.2] else r.1

/-- Per-row loop of `generate_plain_text_email`, carrying
`current_source` (initially `None`); a change of source emits the dashed
source banner, preceded by a blank line except before the first group. -/
def pteLoop : Option String → List DbRow → List String
  | _, [] => []
  | cur, r :: rest =>
    (if some r.source ≠ cur then
      (if cur ≠ none then [""] else [])
        ++ [dashBanner, "SOURCE: " ++ r.source, dashBanner, ""]
     else [])
    ++ ["📋 " ++ r.title, "   Date: " ++ r.date, "   Link: " ++ r.link, ""]
    ++ wrapSummary r.summary ++ [""]
    ++ pteLoop (some r.source) rest

/-- The full line list built by `generate_plain_text_email`.  `now` is
the formatted `datetime.now(UTC)` timestamp, the function's only
non-deterministic input; `rows` is the result of
`SELECT ... ORDER BY source, date DESC`. -/
def pteLines (now : String) (rows : List DbRow) : List String :=
  [eqBanner, "SUSTAINABILITY REGULATORY UPDATES", eqBanner, "Generated: " ++ now, ""]
    ++ pteLoop none rows
    ++ [eqBanner, "End of Report", eqBanner]

/-- `generate_plain_text_email(conn)` of `generate_email_content.py`:
the returned report string. -/
def generate_plain_text_email (now : String) (rows : List DbRow) : String :=
  joinLines (pteLines now rows)

/-- The inline CSS string of the overriding `generate_dashboard`
definition (the second definition in `sustainability_agent.py`
supersedes the first; Python resolves the name to it). -/
def dashStyle : String :=
  "  <style>body\x7bfont-family:Arial, sans-serif;line-height:1.5;margin:40px;\x7dh1,h2\x7bcolor:#2a5d84;\x7dtable\x7bwidth:100%;border-collapse:collapse;\x7dth,td\x7bpadding:8px 12px;border-bottom:1px solid #ddd;\x7dtr:hover\x7bbackground-color:#f1f1f1;\x7d</style>"

/-- One `<tr>` line of the basic dashboard.  Note: only `summary` goes
through the escaping chain (`safe_summary`); `date`, `link` and `title`
are interpolated verbatim. -/
def dashRowLine (r : DbRow) : String :=
  "<tr><td>" ++ r.date ++ "</td><td><a href=\x27" ++ r.link ++ "\x27 target=\x27_blank\x27>"
    ++ r.title ++ "</a></td><td>" ++ escapeHtml r.summary ++ "</td></tr>"

/-- Per-row loop of the overriding `generate_dashboard`, carrying
`current_source`: a change of source closes the previous table (except
before the first group) and opens `<h2>` plus a new table. -/
def dashLoop : Option String → List DbRow → List String
  | _, [] => []
  | cur, r :: rest =>
    (if some r.source ≠ cur then
      (if cur ≠ none then ["</tbody></table>"] else [])
        ++ ["<h2>" ++ r.source ++ "</h2>",
            "<table><thead><tr><th>Date</th><th>Title</th><th>Description</th></tr></thead><tbody>"]
     else [])
    ++ [dashRowLine r]
    ++ dashLoop (some r.source) rest

/-- The full line list of the overriding `generate_dashboard`; the
trailing `</tbody></table>` is appended only `if rows:`. -/
def dashLines (now : String) (rows : List DbRow) : List String :=
  ["<!DOCTYPE html>", "<html lang=\x27en\x27>", "<head>", "  <meta charset=\x27utf-8\x27>",
   "  <title>Sustainability Regulation Updates</title>", dashStyle, "</head>", "<body>",
   "  <h1>Sustainability Regulatory Updates</h1>", "  <p>Generated on " ++ now ++ "</p>"]
    ++ dashLoop none rows
    ++ (if rows.isEmpty then [] else ["</tbody></table>"])
    ++ ["</body>", "</html>"]

/-- `generate_dashboard(conn, html_path)` (overriding definition) of
`sustainability_agent.py`: the HTML text written to `html_path`.  `now`
is the formatted timestamp; `rows` is the result of
`SELECT ... ORDER BY date DESC`. -/
def generate_dashboard (now : String) (rows : List DbRow) : String :=
  joinLines (dashLines now rows)

/-- A row of the enhanced 12-column `updates` table as read back by the
professional renderers.  The first five columns are NOT NULL; the seven
extended columns are nullable, and the renderers treat NULL and `""`
identically in every guard they apply to them (`if significant_changes:`,
`if affected_sectors:`, `first_published or date`, the `upcoming`
filter, and `r[9] == "High"`, all of which conflate NULL with falsy /
non-matching), so we model every field as a plain string with `""`
standing for NULL. -/
structure EnhancedRow where
  source : String
  title : String
  link : String
  date : String
  summary : String
  first_published : String
  last_updated : String
  compliance_deadline : String
  significant_changes : String
  impact_level : String
  affected_sectors : String
  jurisdiction : String
deriving DecidableEq

/-- The impact statistic shared by the professional reports:
`len([r for r in rows if r[9] == lvl])` with `lvl` one of the literals
`"High"`, `"Medium"`, `"Low"` (`generate_professional_plain_text`,
`generate_professional_html` and `generate_professional_dashboard` all
compute exactly this). -/
def impactCount (rows : List EnhancedRow) (lvl : String) : Nat :=
  (rows.filter (fun r => decide (r.impact_level = lvl))).length

/-- Python `sub in s` substring test. -/
def substrB (s sub : String) : Bool :=
  decide (sub.data <:+: s.data)

/-- Python `s.lower()`. -/
def pyLower (s : String) : String :=
  String.mk (s.data.map Char.toLower)

/-- Python `a or b` on strings: `b` when `a` is falsy (empty / NULL). -/
def pyOr (a b : String) : String :=
  if a.data.isEmpty then b else a

/-- The `upcoming` comprehension of `generate_professional_html`:
`r[7] and r[7] != "Voluntary commitment (5-24 month target-setting timeline)" and "2026" in r[7]`. -/
def isUpcoming (r : EnhancedRow) : Bool :=
  !r.compliance_deadline.data.isEmpty
    && !(decide (r.compliance_deadline = "Voluntary commitment (5-24 month target-setting timeline)"))
    && substrB r.compliance_deadline "2026"

/-- The `<style>` block of the `generate_professional_html` head
(`\x7b` and `\x7d` are the literal brace characters produced by the
doubled braces of the Python f-string). -/
def proStyle : String :=
  "<style>\n"
  ++ "body \x7b\n    font-family: -apple-system, BlinkMacSystemFont, \x27Segoe UI\x27, Roboto, \x27Helvetica Neue\x27, Arial, sans-serif;\n    line-height: 1.6;\n    color: #1a1a1a;\n    max-width: 800px;\n    margin: 0 auto;\n    padding: 0;\n    background-color: #f5f5f5;\n\x7d\n"
  ++ ".email-container \x7b\n    background-color: #ffffff;\n    margin: 20px auto;\n    border-radius: 12px;\n    overflow: hidden;\n    box-shadow: 0 4px 12px rgba(0,0,0,0.15);\n\x7d\n"
  ++ ".header \x7b\n    background: linear-gradient(135deg, #2a5d84 0%, #1e4a6b 100%);\n    color: white;\n    padding: 40px 30px;\n    text-align: center;\n\x7d\n"
  ++ ".header h1 \x7b\n    margin: 0 0 10px 0;\n    font-size: 2rem;\n    font-weight: 700;\n\x7d\n"
  ++ ".header .subtitle \x7b\n    opacity: 0.95;\n    font-size: 1.1rem;\n    margin-bottom: 15px;\n\x7d\n"
  ++ ".header .author \x7b\n    font-size: 0.95rem;\n    opacity: 0.9;\n    font-style: italic;\n\x7d\n"
  ++ ".stats-banner \x7b\n    display: flex;\n    justify-content: space-around;\n    padding: 25px;\n    background: #f8f9fa;\n    border-bottom: 3px solid #2a5d84;\n\x7d\n"
  ++ ".stat-box \x7b\n    text-align: center;\n\x7d\n"
  ++ ".stat-number \x7b\n    font-size: 2rem;\n    font-weight: 700;\n    margin-bottom: 5px;\n\x7d\n"
  ++ ".stat-label \x7b\n    font-size: 0.85rem;\n    color: #666;\n    text-transform: uppercase;\n\x7d\n"
  ++ ".stat-high \x7b color: #dc3545; \x7d\n.stat-medium \x7b color: #fd7e14; \x7d\n.stat-low \x7b color: #28a745; \x7d\n"
  ++ ".content \x7b\n    padding: 30px;\n\x7d\n"
  ++ ".urgent-section \x7b\n    background: #fff5f5;\n    border: 2px solid #dc3545;\n    border-radius: 8px;\n    padding: 20px;\n    margin-bottom: 30px;\n\x7d\n"
  ++ ".urgent-title \x7b\n    color: #dc3545;\n    font-weight: 700;\n    font-size: 1.2rem;\n    margin-bottom: 15px;\n\x7d\n"
  ++ ".deadline-item \x7b\n    padding: 10px 0;\n    border-bottom: 1px solid #fdd;\n\x7d\n"
  ++ ".deadline-item:last-child \x7b\n    border-bottom: none;\n\x7d\n"
  ++ ".source-section \x7b\n    margin-bottom: 40px;\n\x7d\n"
  ++ ".source-header \x7b\n    background: #2a5d84;\n    color: white;\n    padding: 15px 20px;\n    margin: 30px -30px 20px -30px;\n    font-size: 1.3rem;\n    font-weight: 600;\n\x7d\n"
  ++ ".update-card \x7b\n    background: #fff;\n    border: 1px solid #e0e0e0;\n    border-radius: 8px;\n    padding: 25px;\n    margin-bottom: 20px;\n\x7d\n"
  ++ ".update-title \x7b\n    font-size: 1.2rem;\n    font-weight: 600;\n    color: #1a1a1a;\n    margin-bottom: 15px;\n\x7d\n"
  ++ ".badge-container \x7b\n    display: flex;\n    gap: 10px;\n    margin-bottom: 15px;\n    flex-wrap: wrap;\n\x7d\n"
  ++ ".badge \x7b\n    padding: 5px 12px;\n    border-radius: 20px;\n    font-size: 0.85rem;\n    font-weight: 600;\n\x7d\n"
  ++ ".badge-high \x7b background: #ffe0e0; color: #dc3545; \x7d\n.badge-medium \x7b background: #fff3cd; color: #fd7e14; \x7d\n.badge-low \x7b background: #d4edda; color: #28a745; \x7d\n.badge-jurisdiction \x7b background: #e8f4f8; color: #2a5d84; \x7d\n"
  ++ ".metadata-grid \x7b\n    display: grid;\n    grid-template-columns: repeat(2, 1fr);\n    gap: 12px;\n    background: #f8f9fa;\n    padding: 15px;\n    border-radius: 6px;\n    margin: 15px 0;\n    font-size: 0.9rem;\n\x7d\n"
  ++ ".metadata-item \x7b\n    display: flex;\n    flex-direction: column;\n\x7d\n"
  ++ ".metadata-label \x7b\n    font-weight: 600;\n    color: #666;\n    font-size: 0.8rem;\n    text-transform: uppercase;\n    margin-bottom: 3px;\n\x7d\n"
  ++ ".metadata-value \x7b\n    color: #1a1a1a;\n\x7d\n"
  ++ ".summary-box \x7b\n    color: #444;\n    line-height: 1.7;\n    margin: 15px 0;\n\x7d\n"
  ++ ".changes-box \x7b\n    background: #fffbf0;\n    border-left: 4px solid #fd7e14;\n    padding: 15px;\n    margin: 15px 0;\n    border-radius: 4px;\n\x7d\n"
  ++ ".changes-title \x7b\n    font-weight: 600;\n    color: #fd7e14;\n    margin-bottom: 10px;\n\x7d\n"
  ++ ".changes-list \x7b\n    list-style: none;\n    padding-left: 0;\n\x7d\n"
  ++ ".changes-list li \x7b\n    padding-left: 20px;\n    position: relative;\n    margin-bottom: 5px;\n\x7d\n"
  ++ ".changes-list li:before \x7b\n    content: \"•\";\n    position: absolute;\n    left: 0;\n    color: #fd7e14;\n    font-weight: bold;\n\x7d\n"
  ++ ".sectors-box \x7b\n    margin: 15px 0;\n\x7d\n"
  ++ ".sectors-list \x7b\n    display: flex;\n    flex-wrap: wrap;\n    gap: 8px;\n    margin-top: 8px;\n\x7d\n"
  ++ ".sector-tag \x7b\n    background: #e8f4f8;\n    color: #2a5d84;\n    padding: 5px 10px;\n    border-radius: 16px;\n    font-size: 0.85rem;\n\x7d\n"
  ++ ".read-more-btn \x7b\n    display: inline-block;\n    margin-top: 15px;\n    padding: 10px 20px;\n    background: #2a5d84;\n    color: white !important;\n    text-decoration: none;\n    border-radius: 6px;\n    font-weight: 500;\n\x7d\n"
  ++ ".footer \x7b\n    background: #2a5d84;\n    color: white;\n    padding: 30px;\n    text-align: center;\n    margin-top: 40px;\n\x7d\n"
  ++ ".footer-title \x7b\n    font-size: 1.1rem;\n    font-weight: 600;\n    margin-bottom: 10px;\n\x7d\n"
  ++ ".footer-author \x7b\n    font-size: 1rem;\n    margin-bottom: 15px;\n\x7d\n"
  ++ ".footer-disclaimer \x7b\n    font-size: 0.85rem;\n    opacity: 0.9;\n    line-height: 1.6;\n\x7d\n"
  ++ "@media (max-width: 600px) \x7b\n    .stats-banner \x7b flex-direction: column; gap: 15px; \x7d\n    .metadata-grid \x7b grid-template-columns: 1fr; \x7d\n    .source-header \x7b margin-left: -20px; margin-right: -20px; \x7d\n    .content \x7b padding: 20px; \x7d\n\x7d\n"
  ++ "</style>"

/-- The opening f-string of `generate_professional_html`: document head,
header banner, the four stat boxes (`len(rows)` and the three impact
counts) and the opening of the content area with the generation
timestamp. -/
def proHead (now : String) (total high med low : Nat) : String :=
  "<!DOCTYPE html>\n<html>\n<head>\n<meta charset=\"utf-8\">\n"
  ++ "<meta name=\"viewport\" content=\"width=device-width, initial-scale=1.0\">\n"
  ++ proStyle
  ++ "\n</head>\n<body>\n<div class=\"email-container\">\n    <div class=\"header\">\n"
  ++ "        <h1>🌍 Sustainability Regulatory Updates</h1>\n"
  ++ "        <div class=\"subtitle\">Global ESG & Climate Disclosure Tracking</div>\n"
  ++ "        <div class=\"author\">Prepared by: Deepa Rao, Sustainability Compliance Analyst</div>\n"
  ++ "    </div>\n    \n    <div class=\"stats-banner\">\n        <div class=\"stat-box\">\n"
  ++ "            <div class=\"stat-number\">" ++ toString total ++ "</div>\n"
  ++ "            <div class=\"stat-label\">Total Updates</div>\n        </div>\n        <div class=\"stat-box\">\n"
  ++ "            <div class=\"stat-number stat-high\">" ++ toString high ++ "</div>\n"
  ++ "            <div class=\"stat-label\">High Impact</div>\n        </div>\n        <div class=\"stat-box\">\n"
  ++ "            <div class=\"stat-number stat-medium\">" ++ toString med ++ "</div>\n"
  ++ "            <div class=\"stat-label\">Medium Impact</div>\n        </div>\n        <div class=\"stat-box\">\n"
  ++ "            <div class=\"stat-number stat-low\">" ++ toString low ++ "</div>\n"
  ++ "            <div class=\"stat-label\">Low Impact</div>\n        </div>\n    </div>\n    \n"
  ++ "    <div class=\"content\">\n        <p style=\"color: #666; margin-bottom: 20px;\">\n"
  ++ "            Generated on " ++ now ++ "\n        </p>\n"

/-- One `deadline-item` of the urgent-deadlines section. -/
def proDeadlineItem (r : EnhancedRow) : String :=
  "\n            <div class=\"deadline-item\">\n                <strong>📅 " ++ r.compliance_deadline
  ++ "</strong> - " ++ r.title ++ " (" ++ r.jurisdiction ++ ")\n            </div>\n"

/-- The urgent-deadlines section, emitted only `if upcoming:`. -/
def proUrgentBlock (ups : List EnhancedRow) : String :=
  if ups.isEmpty then "" else
    "\n        <div class=\"urgent-section\">\n            <div class=\"urgent-title\">⚠️ Urgent: Upcoming Compliance Deadlines</div>\n"
    ++ concatAll (ups.map proDeadlineItem)
    ++ "\n        </div>\n"

/-- Source-group header emitted when `source != current_source`. -/
def proSourceHeader (r : EnhancedRow) : String :=
  "\n        <div class=\"source-header\">" ++ r.source ++ " - " ++ r.jurisdiction
  ++ "</div>\n        <div class=\"source-section\">\n"

/-- Main body of one update card: escaped title (`safe_title`), impact
badges (`impact_class = f"badge-{impact_level.lower()}"`), metadata grid
and escaped summary (`safe_summary`). -/
def proCardMain (r : EnhancedRow) : String :=
  "\n            <div class=\"update-card\">\n                <div class=\"update-title\">"
  ++ escapeHtml r.title
  ++ "</div>\n                \n                <div class=\"badge-container\">\n"
  ++ "                    <span class=\"badge badge-" ++ pyLower r.impact_level ++ "\">"
  ++ r.impact_level ++ " Impact</span>\n"
  ++ "                    <span class=\"badge badge-jurisdiction\">" ++ r.jurisdiction
  ++ "</span>\n                </div>\n                \n                <div class=\"metadata-grid\">\n"
  ++ "                    <div class=\"metadata-item\">\n                        <span class=\"metadata-label\">First Published</span>\n"
  ++ "                        <span class=\"metadata-value\">" ++ pyOr r.first_published r.date
  ++ "</span>\n                    </div>\n"
  ++ "                    <div class=\"metadata-item\">\n                        <span class=\"metadata-label\">Last Updated</span>\n"
  ++ "                        <span class=\"metadata-value\">" ++ pyOr r.last_updated r.date
  ++ "</span>\n                    </div>\n"
  ++ "                    <div class=\"metadata-item\">\n                        <span class=\"metadata-label\">Compliance Deadline</span>\n"
  ++ "                        <span class=\"metadata-value\">" ++ pyOr r.compliance_deadline "To be announced"
  ++ "</span>\n                    </div>\n"
  ++ "                    <div class=\"metadata-item\">\n                        <span class=\"metadata-label\">Impact Level</span>\n"
  ++ "                        <span class=\"metadata-value\">" ++ r.impact_level
  ++ "</span>\n                    </div>\n                </div>\n                \n"
  ++ "                <div class=\"summary-box\">" ++ escapeHtml r.summary ++ "</div>\n"

/-- What the changes loop appends for one `;`-separated piece:
`change = c0.strip()`; nothing when `change` is falsy, otherwise
`f"<li>{safe_change}</li>"` with `safe_change` the escaped text. -/
def proChangesItem (c0 : String) : String :=
  if (pyStrip c0).data.isEmpty then "" else "<li>" ++ escapeHtml (pyStrip c0) ++ "</li>"

/-- The significant-changes box, emitted only `if significant_changes:`;
each nonempty `;`-separated piece is stripped, escaped (`safe_change`)
and wrapped in `<li>`. -/
def proChangesBlock (r : EnhancedRow) : String :=
  if r.significant_changes.data.isEmpty then "" else
    "\n                <div class=\"changes-box\">\n                    <div class=\"changes-title\">📌 Significant Changes</div>\n                    <ul class=\"changes-list\">\n"
    ++ concatAll ((pySplitChar ';' r.significant_changes).map proChangesItem)
    ++ "\n                    </ul>\n                </div>\n"

/-- One sector tag: `f'<span class="sector-tag">{sector}</span>'`.  Note
that `sector` is interpolated without the escaping chain. -/
def proSectorTag (sector : String) : String :=
  "<span class=\"sector-tag\">" ++ sector ++ "</span>"

/-- The affected-sectors box, emitted only `if affected_sectors:`; each
`,`-separated piece is stripped and wrapped in an (unescaped) tag. -/
def proSectorsBlock (r : EnhancedRow) : String :=
  if r.affected_sectors.data.isEmpty then "" else
    "\n                <div class=\"sectors-box\">\n                    <div class=\"metadata-label\">Affected Sectors</div>\n                    <div class=\"sectors-list\">\n"
    ++ concatAll ((pySplitChar ',' r.affected_sectors).map (fun s => proSectorTag (pyStrip s)))
    ++ "\n                    </div>\n                </div>\n"

/-- The closing link of one update card. -/
def proCardLink (r : EnhancedRow) : String :=
  "\n                <a href=\"" ++ r.link
  ++ "\" class=\"read-more-btn\" target=\"_blank\">Read Full Document →</a>\n            </div>\n"

/-- Everything `generate_professional_html` appends for one row. -/
def proCard (r : EnhancedRow) : String :=
  proCardMain r ++ proChangesBlock r ++ proSectorsBlock r ++ proCardLink r

/-- Per-row loop of `generate_professional_html`, carrying
`current_source`. -/
def proLoop : Option String → List EnhancedRow → String
  | _, [] => ""
  | cur, r :: rest =>
    (if some r.source ≠ cur then proSourceHeader r else "") ++ proCard r
      ++ proLoop (some r.source) rest

/-- The closing block of `generate_professional_html`. -/
def proFooter : String :=
  "\n        </div>\n    </div>\n    \n    <div class=\"footer\">\n"
  ++ "        <div class=\"footer-title\">Sustainability Regulation Tracker</div>\n"
  ++ "        <div class=\"footer-author\">Prepared by: Deepa Rao | Sustainability Compliance Analyst</div>\n"
  ++ "        <div class=\"footer-disclaimer\">\n"
  ++ "            This report tracks global sustainability regulations including EU CSRD/ESRS, \n"
  ++ "            IFRS S1/S2, UK SRS, Japan SSBJ, India BRSR, and SBTi standards. \n"
  ++ "            For questions, updates, or additional information, please contact the administrator.\n"
  ++ "        </div>\n    </div>\n</div>\n</body>\n</html>\n"

/-- `generate_professional_html(conn)` of
`generate_email_content_enhanced.py`: the HTML email body.  `now` is the
formatted timestamp; `rows` is the result of
`SELECT ... ORDER BY compliance_deadline, source, date DESC`. -/
def generate_professional_html (now : String) (rows : List EnhancedRow) : String :=
  proHead now rows.length (impactCount rows "High") (impactCount rows "Medium")
      (impactCount rows "Low")
  ++ proUrgentBlock (rows.filter isUpcoming)
  ++ proLoop none rows
  ++ proFooter

/-- The `source_counts` dictionary of `generate_professional_dashboard`:
`source_counts[source] = source_counts.get(source, 0) + 1`, modelled as
an association list in first-appearance order (Python dicts keep
insertion order; updating an existing key keeps its position). -/
def bumpSource (acc : List (String × Nat)) (src : String) : List (String × Nat) :=
  if acc.any (fun p => decide (p.1 = src)) then
    acc.map (fun p => if p.1 = src then (p.1, p.2 + 1) else p)
  else
    acc ++ [(src, 1)]

/-- Per-source row counts in first-appearance order. -/
def sourceCounts (rows : List EnhancedRow) : List (String × Nat) :=
  rows.foldl (fun acc r => bumpSource acc r.source) []

/-- The `upcoming` comprehension of `generate_professional_dashboard`:
`r[7] and r[7] != "Voluntary commitment (5-24 month target-setting timeline)"`
(unlike `generate_professional_html`, no `"2026" in r[7]` conjunct
here; that test only picks the `urgent` CSS class below). -/
def epdIsUpcoming (r : EnhancedRow) : Bool :=
  !r.compliance_deadline.data.isEmpty
    && !(decide (r.compliance_deadline = "Voluntary commitment (5-24 month target-setting timeline)"))

/-- The `<style>` block of `generate_professional_dashboard`
(`sustainability_agent_enhanced.py`; the non-ASCII byte sequences are
the ones literally present in that file). -/
def epdStyle : String :=
  "<style>\n"
  ++ "* \x7b\n    margin: 0;\n    padding: 0;\n    box-sizing: border-box;\n\x7d\n\n"
  ++ "body \x7b\n    font-family: -apple-system, BlinkMacSystemFont, \x27Segoe UI\x27, Roboto, \x27Helvetica Neue\x27, Arial, sans-serif;\n    line-height: 1.6;\n    color: #1a1a1a;\n    background: linear-gradient(135deg, #667eea 0%, #764ba2 100%);\n    min-height: 100vh;\n    padding: 20px;\n\x7d\n\n"
  ++ ".container \x7b\n    max-width: 1400px;\n    margin: 0 auto;\n    background: white;\n    border-radius: 16px;\n    box-shadow: 0 20px 60px rgba(0,0,0,0.3);\n    overflow: hidden;\n\x7d\n\n"
  ++ ".header \x7b\n    background: linear-gradient(135deg, #2a5d84 0%, #1e4a6b 100%);\n    color: white;\n    padding: 40px;\n    text-align: center;\n\x7d\n\n"
  ++ ".header h1 \x7b\n    font-size: 2.5rem;\n    margin-bottom: 10px;\n    font-weight: 700;\n\x7d\n\n"
  ++ ".header .subtitle \x7b\n    font-size: 1.1rem;\n    opacity: 0.9;\n    margin-bottom: 20px;\n\x7d\n\n"
  ++ ".header .meta \x7b\n    font-size: 0.95rem;\n    opacity: 0.85;\n    display: flex;\n    justify-content: center;\n    align-items: center;\n    gap: 30px;\n    flex-wrap: wrap;\n\x7d\n\n"
  ++ ".meta-item \x7b\n    display: flex;\n    align-items: center;\n    gap: 8px;\n\x7d\n\n"
  ++ ".stats-grid \x7b\n    display: grid;\n    grid-template-columns: repeat(auto-fit, minmax(200px, 1fr));\n    gap: 20px;\n    padding: 40px;\n    background: #f8f9fa;\n\x7d\n\n"
  ++ ".stat-card \x7b\n    background: white;\n    padding: 25px;\n    border-radius: 12px;\n    box-shadow: 0 4px 12px rgba(0,0,0,0.08);\n    text-align: center;\n    transition: transform 0.2s;\n\x7d\n\n"
  ++ ".stat-card:hover \x7b\n    transform: translateY(-4px);\n    box-shadow: 0 8px 20px rgba(0,0,0,0.12);\n\x7d\n\n"
  ++ ".stat-number \x7b\n    font-size: 2.5rem;\n    font-weight: 700;\n    color: #2a5d84;\n    margin-bottom: 8px;\n\x7d\n\n"
  ++ ".stat-label \x7b\n    font-size: 0.95rem;\n    color: #666;\n    text-transform: uppercase;\n    letter-spacing: 0.5px;\n\x7d\n\n"
  ++ ".impact-high .stat-number \x7b color: #dc3545; \x7d\n.impact-medium .stat-number \x7b color: #fd7e14; \x7d\n.impact-low .stat-number \x7b color: #28a745; \x7d\n\n"
  ++ ".content \x7b\n    padding: 40px;\n\x7d\n\n"
  ++ ".section \x7b\n    margin-bottom: 50px;\n\x7d\n\n"
  ++ ".section-title \x7b\n    font-size: 1.8rem;\n    color: #2a5d84;\n    margin-bottom: 25px;\n    padding-bottom: 12px;\n    border-bottom: 3px solid #2a5d84;\n    display: flex;\n    align-items: center;\n    gap: 12px;\n\x7d\n\n"
  ++ ".compliance-calendar \x7b\n    display: grid;\n    gap: 15px;\n\x7d\n\n"
  ++ ".deadline-card \x7b\n    background: #fff;\n    border: 2px solid #e0e0e0;\n    border-left: 5px solid #2a5d84;\n    padding: 20px;\n    border-radius: 8px;\n    transition: all 0.2s;\n\x7d\n\n"
  ++ ".deadline-card:hover \x7b\n    border-left-color: #667eea;\n    box-shadow: 0 4px 12px rgba(0,0,0,0.1);\n\x7d\n\n"
  ++ ".deadline-card.urgent \x7b\n    border-left-color: #dc3545;\n    background: #fff5f5;\n\x7d\n\n"
  ++ ".deadline-date \x7b\n    font-size: 1.1rem;\n    font-weight: 600;\n    color: #2a5d84;\n    margin-bottom: 8px;\n\x7d\n\n"
  ++ ".deadline-title \x7b\n    font-size: 1.05rem;\n    font-weight: 600;\n    margin-bottom: 8px;\n    color: #1a1a1a;\n\x7d\n\n"
  ++ ".deadline-jurisdiction \x7b\n    display: inline-block;\n    padding: 4px 12px;\n    background: #e8f4f8;\n    border-radius: 20px;\n    font-size: 0.85rem;\n    color: #2a5d84;\n    margin-bottom: 10px;\n\x7d\n\n"
  ++ ".update-card \x7b\n    background: #fff;\n    border: 1px solid #e0e0e0;\n    border-radius: 12px;\n    padding: 30px;\n    margin-bottom: 25px;\n    transition: all 0.2s;\n\x7d\n\n"
  ++ ".update-card:hover \x7b\n    box-shadow: 0 8px 20px rgba(0,0,0,0.1);\n    transform: translateX(4px);\n\x7d\n\n"
  ++ ".update-header \x7b\n    display: flex;\n    justify-content: space-between;\n    align-items: start;\n    margin-bottom: 15px;\n    flex-wrap: wrap;\n    gap: 15px;\n\x7d\n\n"
  ++ ".update-title \x7b\n    font-size: 1.3rem;\n    font-weight: 600;\n    color: #1a1a1a;\n    flex: 1;\n    min-width: 250px;\n\x7d\n\n"
  ++ ".update-badges \x7b\n    display: flex;\n    gap: 10px;\n    flex-wrap: wrap;\n\x7d\n\n"
  ++ ".badge \x7b\n    padding: 6px 14px;\n    border-radius: 20px;\n    font-size: 0.85rem;\n    font-weight: 600;\n    white-space: nowrap;\n\x7d\n\n"
  ++ ".badge-high \x7b background: #ffe0e0; color: #dc3545; \x7d\n.badge-medium \x7b background: #fff3cd; color: #fd7e14; \x7d\n.badge-low \x7b background: #d4edda; color: #28a745; \x7d\n.badge-source \x7b background: #e8f4f8; color: #2a5d84; \x7d\n\n"
  ++ ".update-meta \x7b\n    display: grid;\n    grid-template-columns: repeat(auto-fit, minmax(200px, 1fr));\n    gap: 15px;\n    margin: 20px 0;\n    padding: 15px;\n    background: #f8f9fa;\n    border-radius: 8px;\n    font-size: 0.9rem;\n\x7d\n\n"
  ++ ".meta-row \x7b\n    display: flex;\n    flex-direction: column;\n\x7d\n\n"
  ++ ".meta-label \x7b\n    font-weight: 600;\n    color: #666;\n    font-size: 0.85rem;\n    margin-bottom: 4px;\n    text-transform: uppercase;\n    letter-spacing: 0.5px;\n\x7d\n\n"
  ++ ".meta-value \x7b\n    color: #1a1a1a;\n\x7d\n\n"
  ++ ".update-summary \x7b\n    color: #444;\n    line-height: 1.7;\n    margin: 15px 0;\n\x7d\n\n"
  ++ ".update-changes \x7b\n    background: #fffbf0;\n    border-left: 4px solid #fd7e14;\n    padding: 15px;\n    margin: 15px 0;\n    border-radius: 4px;\n\x7d\n\n"
  ++ ".changes-title \x7b\n    font-weight: 600;\n    color: #fd7e14;\n    margin-bottom: 8px;\n    font-size: 0.95rem;\n\x7d\n\n"
  ++ ".update-sectors \x7b\n    margin: 15px 0;\n\x7d\n\n"
  ++ ".sectors-list \x7b\n    display: flex;\n    flex-wrap: wrap;\n    gap: 8px;\n    margin-top: 8px;\n\x7d\n\n"
  ++ ".sector-tag \x7b\n    background: #e8f4f8;\n    color: #2a5d84;\n    padding: 5px 12px;\n    border-radius: 16px;\n    font-size: 0.85rem;\n\x7d\n\n"
  ++ ".update-link \x7b\n    display: inline-block;\n    margin-top: 15px;\n    padding: 10px 20px;\n    background: #2a5d84;\n    color: white;\n    text-decoration: none;\n    border-radius: 6px;\n    font-weight: 500;\n    transition: all 0.2s;\n\x7d\n\n"
  ++ ".update-link:hover \x7b\n    background: #1e4a6b;\n    transform: translateX(4px);\n\x7d\n\n"
  ++ ".footer \x7b\n    background: #2a5d84;\n    color: white;\n    padding: 30px;\n    text-align: center;\n\x7d\n\n"
  ++ ".footer-title \x7b\n    font-size: 1.2rem;\n    font-weight: 600;\n    margin-bottom: 8px;\n\x7d\n\n"
  ++ ".footer-subtitle \x7b\n    opacity: 0.9;\n    margin-bottom: 15px;\n\x7d\n\n"
  ++ ".footer-meta \x7b\n    opacity: 0.8;\n    font-size: 0.9rem;\n\x7d\n\n"
  ++ "@media (max-width: 768px) \x7b\n    .header h1 \x7b font-size: 1.8rem; \x7d\n    .stats-grid \x7b grid-template-columns: 1fr; padding: 20px; \x7d\n    .content \x7b padding: 20px; \x7d\n    .update-header \x7b flex-direction: column; \x7d\n    .update-meta \x7b grid-template-columns: 1fr; \x7d\n\x7d\n"
  ++ "</style>"

/-- Opening f-string of `generate_professional_dashboard`: head, header
banner with the generation timestamp, and the four impact stat cards. -/
def epdHead (now : String) (total high med low : Nat) : String :=
  "<!DOCTYPE html>\n<html lang=\"en\">\n<head>\n<meta charset=\"utf-8\">\n"
  ++ "<meta name=\"viewport\" content=\"width=device-width, initial-scale=1.0\">\n"
  ++ "<title>Sustainability Regulation Dashboard | Deepa Rao</title>\n"
  ++ epdStyle
  ++ "\n</head>\n<body>\n<div class=\"container\">\n    <div class=\"header\">\n"
  ++ "        <h1>üåç Sustainability Regulation Dashboard</h1>\n"
  ++ "        <div class=\"subtitle\">Global ESG & Climate Disclosure Tracking System</div>\n"
  ++ "        <div class=\"meta\">\n            <div class=\"meta-item\">\n"
  ++ "                <span>üìä</span>\n                <span>Generated: " ++ now ++ "</span>\n"
  ++ "            </div>\n            <div class=\"meta-item\">\n"
  ++ "                <span>üë§</span>\n                <span>Prepared by: <strong>Deepa Rao</strong></span>\n"
  ++ "            </div>\n            <div class=\"meta-item\">\n"
  ++ "                <span>üìà</span>\n                <span>" ++ toString total ++ " Active Regulations</span>\n"
  ++ "            </div>\n        </div>\n    </div>\n\n    <div class=\"stats-grid\">\n"
  ++ "        <div class=\"stat-card\">\n            <div class=\"stat-number\">" ++ toString total
  ++ "</div>\n            <div class=\"stat-label\">Total Updates</div>\n        </div>\n"
  ++ "        <div class=\"stat-card impact-high\">\n            <div class=\"stat-number\">" ++ toString high
  ++ "</div>\n            <div class=\"stat-label\">High Impact</div>\n        </div>\n"
  ++ "        <div class=\"stat-card impact-medium\">\n            <div class=\"stat-number\">" ++ toString med
  ++ "</div>\n            <div class=\"stat-label\">Medium Impact</div>\n        </div>\n"
  ++ "        <div class=\"stat-card impact-low\">\n            <div class=\"stat-number\">" ++ toString low
  ++ "</div>\n            <div class=\"stat-label\">Low Impact</div>\n        </div>\n"

/-- One per-source stat card of the source breakdown loop. -/
def epdSourceCard (source : String) (count : Nat) : String :=
  "\n        <div class=\"stat-card\">\n            <div class=\"stat-number\">" ++ toString count
  ++ "</div>\n            <div class=\"stat-label\">" ++ source ++ "</div>\n        </div>\n"

/-- The piece closing the stats grid and opening the content area. -/
def epdContentOpen : String :=
  "\n    </div>\n\n    <div class=\"content\">\n"

/-- One compliance-calendar card; the `urgent` class is set when the
deadline mentions 2026. -/
def epdDeadlineCard (r : EnhancedRow) : String :=
  "\n                <div class=\"deadline-card "
  ++ (if !r.compliance_deadline.data.isEmpty && substrB r.compliance_deadline "2026"
      then "urgent" else "")
  ++ "\">\n                    <div class=\"deadline-date\">‚è∞ " ++ r.compliance_deadline
  ++ "</div>\n                    <div class=\"deadline-title\">" ++ r.title
  ++ "</div>\n                    <span class=\"deadline-jurisdiction\">" ++ r.jurisdiction
  ++ "</span>\n                </div>\n"

/-- The compliance-calendar section, emitted only `if upcoming:`. -/
def epdCalendarBlock (ups : List EnhancedRow) : String :=
  if ups.isEmpty then "" else
    "\n        <div class=\"section\">\n            <h2 class=\"section-title\">üìÖ Compliance Calendar</h2>\n            <div class=\"compliance-calendar\">\n"
    ++ concatAll (ups.map epdDeadlineCard)
    ++ "\n            </div>\n        </div>\n"

/-- Opening of the detailed-updates section. -/
def epdSectionOpen : String :=
  "\n        <div class=\"section\">\n            <h2 class=\"section-title\">üìã Detailed Regulation Updates</h2>\n"

/-- Source-group header emitted when `source != current_source`. -/
def epdSourceHeader (r : EnhancedRow) : String :=
  "\n            <h3 style=\"color: #2a5d84; margin: 30px 0 20px 0; font-size: 1.5rem;\">\n                "
  ++ r.source ++ " - " ++ r.jurisdiction ++ "\n            </h3>\n"

/-- Main body of one dashboard update card: escaped title
(`safe_title`), source and impact badges, meta grid and escaped summary
(`safe_summary`). -/
def epdCardMain (r : EnhancedRow) : String :=
  "\n            <div class=\"update-card\">\n                <div class=\"update-header\">\n                    <div class=\"update-title\">"
  ++ escapeHtml r.title
  ++ "</div>\n                    <div class=\"update-badges\">\n"
  ++ "                        <span class=\"badge badge-source\">" ++ r.source ++ "</span>\n"
  ++ "                        <span class=\"badge badge-" ++ pyLower r.impact_level ++ "\">"
  ++ r.impact_level ++ " Impact</span>\n"
  ++ "                    </div>\n                </div>\n                \n                <div class=\"update-meta\">\n"
  ++ "                    <div class=\"meta-row\">\n                        <span class=\"meta-label\">First Published</span>\n"
  ++ "                        <span class=\"meta-value\">" ++ pyOr r.first_published r.date
  ++ "</span>\n                    </div>\n"
  ++ "                    <div class=\"meta-row\">\n                        <span class=\"meta-label\">Last Updated</span>\n"
  ++ "                        <span class=\"meta-value\">" ++ pyOr r.last_updated r.date
  ++ "</span>\n                    </div>\n"
  ++ "                    <div class=\"meta-row\">\n                        <span class=\"meta-label\">Compliance Deadline</span>\n"
  ++ "                        <span class=\"meta-value\">" ++ pyOr r.compliance_deadline "To be announced"
  ++ "</span>\n                    </div>\n"
  ++ "                    <div class=\"meta-row\">\n                        <span class=\"meta-label\">Jurisdiction</span>\n"
  ++ "                        <span class=\"meta-value\">" ++ r.jurisdiction
  ++ "</span>\n                    </div>\n                </div>\n                \n"
  ++ "                <div class=\"update-summary\">" ++ escapeHtml r.summary ++ "</div>\n"

/-- `safe_changes`: the whole significant-changes string escaped, or
`""` when the field is falsy
(`significant_changes.replace(...) if significant_changes else ""`). -/
def epdSafeChanges (r : EnhancedRow) : String :=
  if r.significant_changes.data.isEmpty then "" else escapeHtml r.significant_changes

/-- The significant-changes box of the dashboard card, emitted only
`if safe_changes:`; unlike the professional email it embeds the whole
escaped string in one `<div>`. -/
def epdChangesBlock (r : EnhancedRow) : String :=
  if (epdSafeChanges r).data.isEmpty then "" else
    "\n                <div class=\"update-changes\">\n                    <div class=\"changes-title\">üìå Significant Changes</div>\n                    <div>"
    ++ epdSafeChanges r
    ++ "</div>\n                </div>\n"

/-- The affected-sectors box of the dashboard card, emitted only
`if affected_sectors:`; each stripped sector is wrapped in the same
unescaped `f'<span class="sector-tag">{sector}</span>'` tag as in the
professional email. -/
def epdSectorsBlock (r : EnhancedRow) : String :=
  if r.affected_sectors.data.isEmpty then "" else
    "\n                <div class=\"update-sectors\">\n                    <div class=\"meta-label\">Affected Sectors</div>\n                    <div class=\"sectors-list\">\n"
    ++ concatAll ((pySplitChar ',' r.affected_sectors).map (fun s => proSectorTag (pyStrip s)))
    ++ "\n                    </div>\n                </div>\n"

/-- The closing link of one dashboard update card. -/
def epdCardLink (r : EnhancedRow) : String :=
  "\n                <a href=\"" ++ r.link
  ++ "\" class=\"update-link\" target=\"_blank\">Read Full Document ‚Üí</a>\n            </div>\n"

/-- Everything `generate_professional_dashboard` appends for one row. -/
def epdCard (r : EnhancedRow) : String :=
  epdCardMain r ++ epdChangesBlock r ++ epdSectorsBlock r ++ epdCardLink r

/-- Per-row loop of `generate_professional_dashboard`, carrying
`current_source`. -/
def epdLoop : Option String → List EnhancedRow → String
  | _, [] => ""
  | cur, r :: rest =>
    (if some r.source ≠ cur then epdSourceHeader r else "") ++ epdCard r
      ++ epdLoop (some r.source) rest

/-- The closing block of `generate_professional_dashboard`. -/
def epdFooter : String :=
  "\n        </div>\n    </div>\n\n    <div class=\"footer\">\n"
  ++ "        <div class=\"footer-title\">Sustainability Regulation Tracker</div>\n"
  ++ "        <div class=\"footer-subtitle\">Comprehensive ESG & Climate Disclosure Monitoring</div>\n"
  ++ "        <div class=\"footer-meta\">\n"
  ++ "            <p>Prepared by: Deepa Rao | Sustainability Compliance Analyst</p>\n"
  ++ "            <p style=\"margin-top: 8px; opacity: 0.7;\">\n"
  ++ "                This dashboard tracks global sustainability regulations including EU CSRD/ESRS, \n"
  ++ "                IFRS S1/S2, UK SRS, Japan SSBJ, India BRSR, and SBTi standards.\n"
  ++ "            </p>\n"
  ++ "            <p style=\"margin-top: 12px; font-size: 0.85rem;\">\n"
  ++ "                For questions or updates, please contact the administrator.\n"
  ++ "            </p>\n"
  ++ "        </div>\n    </div>\n</div>\n</body>\n</html>\n"

/-- `generate_professional_dashboard(conn, html_path)` of
`sustainability_agent_enhanced.py`: the HTML text written to
`html_path`.  `now` is the formatted timestamp; `rows` is the result of
`SELECT ... ORDER BY compliance_deadline, date DESC`. -/
def generate_professional_dashboard (now : String) (rows : List EnhancedRow) : String :=
  epdHead now rows.length (impactCount rows "High") (impactCount rows "Medium")
      (impactCount rows "Low")
  ++ concatAll ((sourceCounts rows).map (fun p => epdSourceCard p.1 p.2))
  ++ epdContentOpen
  ++ epdCalendarBlock (rows.filter epdIsUpcoming)
  ++ epdSectionOpen
  ++ epdLoop none rows
  ++ epdFooter

/-- A well-formed basic record for concrete instantiations. -/
def demoItem (src title summary : String) : UpdateItem :=
  ⟨some src, some title, some "http://example.org/doc", some "2025-01-01", some summary,
   none, none, none, none, some "Medium", none, none⟩

/-- A malformed record: `title` is `None`, violating the NOT NULL
constraint on the `title` column. -/
def badItem : UpdateItem :=
  ⟨some "EU", none, some "http://example.org/doc", some "2025-01-01", some "s",
   none, none, none, none, none, none, none⟩

/-- A fully configured SMTP environment for concrete instantiations. -/
def demoEnv : SmtpEnv :=
  ⟨some "smtp.example.org", some "587", some "user", some "pw", some "to@example.org"⟩

/-- A basic row whose title carries markup. -/
def c6Row : DbRow :=
  ⟨"EU", "<script>alert(1)</script>", "http://example.org/a", "2025-01-01", "plain summary"⟩

/-- An enhanced row whose affected-sectors list carries markup and
whose significant-changes list is nonempty. -/
def c6Erow : EnhancedRow :=
  ⟨"EU", "Title", "http://example.org/a", "2025-01-01", "Sum", "", "", "",
   "Change A; Change B", "High", "<b>bold</b>, Energy", "EU"⟩

/-- A fixed generation timestamp for concrete instantiations. -/
def c7Now : String := "August 1, 2025 at 00:00 UTC"

/-! ## Store-layer lemmas -/

theorem store_updates_fst_eq (items : List UpdateItem) :
    ∀ stored, (store_updates stored items).1 = stored ++ (store_updates stored items).2 := by
  induction items with
  | nil => intro stored; simp [store_updates]
  | cons i rest ih =>
    intro stored
    by_cases h : insertOk stored i
    · simp only [store_updates, if_pos h]
      rw [ih (stored ++ [i])]
      simp
    · simp only [store_updates, if_neg h]
      exact ih stored

theorem keyPresent_append (stored more : List UpdateItem) (i : UpdateItem)
    (h : keyPresent stored i) : keyPresent (stored ++ more) i := by
  unfold keyPresent at *
  rw [List.map_append]
  exact List.mem_append.mpr (Or.inl h)

theorem keyPresent_after_store (items : List UpdateItem) (stored : List UpdateItem)
    (i : UpdateItem) (h : keyPresent stored i) :
    keyPresent (store_updates stored items).1 i := by
  rw [store_updates_fst_eq]
  exact keyPresent_append _ _ _ h

theorem keyPresent_of_inserted (items : List UpdateItem) :
    ∀ stored i, i ∈ items → wellFormed i = true →
      keyPresent (store_updates stored items).1 i := by
  induction items with
  | nil => intro stored i hmem _; exact absurd hmem (List.not_mem_nil i)
  | cons j rest ih =>
    intro stored i hmem hwf
    rcases List.mem_cons.mp hmem with heq | hmem'
    · subst heq
      by_cases h : insertOk stored i
      · have hkp : keyPresent (stored ++ [i]) i := by
          unfold keyPresent
          rw [List.map_append]
          exact List.mem_append.mpr (Or.inr (by simp))
        simp only [store_updates, if_pos h]
        exact keyPresent_after_store rest (stored ++ [i]) i hkp
      · have hkp : keyPresent stored i := by
          by_contra hkp
          exact h ⟨hwf, hkp⟩
        simp only [store_updates, if_neg h]
        exact keyPresent_after_store rest stored i hkp
    · by_cases h : insertOk stored j
      · simp only [store_updates, if_pos h]
        exact ih (stored ++ [j]) i hmem' hwf
      · simp only [store_updates, if_neg h]
        exact ih stored i hmem' hwf

theorem store_updates_noop (items : List UpdateItem) :
    ∀ stored, (∀ i ∈ items, wellFormed i = true → keyPresent stored i) →
      store_updates stored items = (stored, []) := by
  induction items with
  | nil => intro stored _; simp [store_updates]
  | cons i rest ih =>
    intro stored h
    have hni : ¬ insertOk stored i := by
      rintro ⟨hwf, hkp⟩
      exact hkp (h i (by simp) hwf)
    simp only [store_updates, if_neg hni]
    exact ih stored (fun j hj hwf => h j (by simp [hj]) hwf)

theorem store_updates_snd_eq_newBySpec (items : List UpdateItem) :
    ∀ stored, (∀ i ∈ items, wellFormed i = true) →
      (store_updates stored items).2 = newBySpec (stored.map naturalKey) items := by
  induction items with
  | nil => intro stored _; simp [store_updates, newBySpec]
  | cons i rest ih =>
    intro stored h
    have hwfi : wellFormed i = true := h i (by simp)
    have hrest : ∀ j ∈ rest, wellFormed j = true := fun j hj => h j (by simp [hj])
    by_cases hkp : keyPresent stored i
    · have hni : ¬ insertOk stored i := fun hc => hc.2 hkp
      have hmem : naturalKey i ∈ stored.map naturalKey := hkp
      simp only [store_updates, if_neg hni, newBySpec, if_pos hmem]
      exact ih stored hrest
    · have hins : insertOk stored i := ⟨hwfi, hkp⟩
      have hmem : ¬ (naturalKey i ∈ stored.map naturalKey) := hkp
      have hh := ih (stored ++ [i]) hrest
      simp only [store_updates, if_pos hins, newBySpec, if_neg hmem]
      rw [hh, List.map_append]
      simp

theorem keyDistinct_preserved (items : List UpdateItem) :
    ∀ stored, stored.Pairwise (fun a b => naturalKey a ≠ naturalKey b) →
      (store_updates stored items).1.Pairwise (fun a b => naturalKey a ≠ naturalKey b) := by
  induction items with
  | nil => intro stored h; simpa [store_updates] using h
  | cons i rest ih =>
    intro stored h
    by_cases hins : insertOk stored i
    · have hnew : (stored ++ [i]).Pairwise (fun a b => naturalKey a ≠ naturalKey b) := by
        rw [List.pairwise_append]
        refine ⟨h, by simp, ?_⟩
        intro a ha b hb
        have hb' : b = i := by simpa using hb
        subst hb'
        intro heq
        refine hins.2 ?_
        unfold keyPresent
        rw [← heq]
        exact List.mem_map_of_mem naturalKey ha
      simp only [store_updates, if_pos hins]
      exact ih (stored ++ [i]) hnew
    · simp only [store_updates, if_neg hins]
      exact ih stored h

theorem runOps_aux (ops : List StoreOp) :
    ∀ stored, stored.Pairwise (fun a b => naturalKey a ≠ naturalKey b) →
      (ops.foldl applyOp stored).Pairwise (fun a b => naturalKey a ≠ naturalKey b) := by
  induction ops with
  | nil => intro stored h; simpa using h
  | cons op rest ih =>
    intro stored h
    simp only [List.foldl_cons]
    apply ih
    cases op with
    | init => exact h
    | insertBatch items => exact keyDistinct_preserved items stored h

/-! ## Claims about the store layer -/

/-- C1: `store_updates` returns exactly the input records whose natural
key `(source, title, link)` was not yet stored at the time of their
insert, in input order (this is `newBySpec`, the spec-side description
of `insert_all`, seeded with the keys of the store); every skip is a
caught `IntegrityError`, so nothing is raised, and the stored rows after
the run are the old rows followed by exactly the returned records. -/
theorem insert_all_returns_fresh_records (stored items : List UpdateItem)
    (h : ∀ i ∈ items, wellFormed i = true) :
    (store_updates stored items).2 = newBySpec (stored.map naturalKey) items
    ∧ (store_updates stored items).1 = stored ++ (store_updates stored items).2 :=
  ⟨store_updates_snd_eq_newBySpec items stored h, store_updates_fst_eq items stored⟩

/-- Witness for C1 at a concrete batch with an in-batch duplicate. -/
theorem insert_all_returns_fresh_records_witness :
    (∀ i ∈ [demoItem "EU" "A" "s1", demoItem "EU" "A" "s2", demoItem "UK" "B" "s3"],
        wellFormed i = true)
    ∧ ((store_updates [] [demoItem "EU" "A" "s1", demoItem "EU" "A" "s2", demoItem "UK" "B" "s3"]).2
          = newBySpec (([] : List UpdateItem).map naturalKey)
              [demoItem "EU" "A" "s1", demoItem "EU" "A" "s2", demoItem "UK" "B" "s3"]
        ∧ (store_updates [] [demoItem "EU" "A" "s1", demoItem "EU" "A" "s2", demoItem "UK" "B" "s3"]).1
          = [] ++ (store_updates [] [demoItem "EU" "A" "s1", demoItem "EU" "A" "s2", demoItem "UK" "B" "s3"]).2) :=
  ⟨by decide,
   insert_all_returns_fresh_records []
     [demoItem "EU" "A" "s1", demoItem "EU" "A" "s2", demoItem "UK" "B" "s3"] (by decide)⟩

/-- C2: ingestion is idempotent: running `store_updates` twice with the
same batch from an empty store leaves the stored set of the second run
with the same size as after the first run, and the second run returns no
newly inserted records. -/
theorem ingestion_idempotent (items : List UpdateItem) :
    (store_updates (store_updates [] items).1 items).1.length
      = (store_updates [] items).1.length
    ∧ (store_updates (store_updates [] items).1 items).2 = [] := by
  have h : store_updates (store_updates [] items).1 items = ((store_updates [] items).1, []) :=
    store_updates_noop items _ (fun i hi hwf => keyPresent_of_inserted items [] i hi hwf)
  rw [h]
  exact ⟨rfl, rfl⟩

/-- C3: natural-key uniqueness is an invariant: after any sequence of
`initialise_db` and `store_updates` operations on a fresh database, no
two stored rows share the `(source, title, link)` triple. -/
theorem natural_key_uniqueness (ops : List StoreOp) :
    (runOps ops).Pairwise (fun a b => naturalKey a ≠ naturalKey b) :=
  runOps_aux ops [] (by simp)

/-- C5: a malformed record (a NULL in a NOT NULL column) fails only its
own insert: `store_updates` on a batch containing it behaves exactly as
on the batch with that record removed, so every well-formed,
non-duplicate record later in the batch is still inserted and
returned. -/
theorem malformed_record_skipped (m : UpdateItem) (hm : wellFormed m = false)
    (stored pre post : List UpdateItem) :
    store_updates stored (pre ++ m :: post) = store_updates stored (pre ++ post) := by
  induction pre generalizing stored with
  | nil =>
    have hni : ¬ insertOk stored m := by
      rintro ⟨hwf, _⟩
      rw [hm] at hwf
      exact Bool.noConfusion hwf
    simp only [List.nil_append, store_updates, if_neg hni]
  | cons p rest ih =>
    by_cases h : insertOk stored p
    · simp only [List.cons_append, store_updates, if_pos h, List.append_eq]
      rw [ih]
    · simp only [List.cons_append, store_updates, if_neg h]
      exact ih stored

/-- Witness for C5: with the malformed `badItem` between two good
records, the run equals the run without it (so the later record is still
inserted). -/
theorem malformed_record_skipped_witness :
    wellFormed badItem = false
    ∧ store_updates [] ([demoItem "EU" "A" "s1"] ++ badItem :: [demoItem "UK" "B" "s3"])
        = store_updates [] ([demoItem "EU" "A" "s1"] ++ [demoItem "UK" "B" "s3"]) :=
  ⟨by decide,
   malformed_record_skipped badItem (by decide) [] [demoItem "EU" "A" "s1"]
     [demoItem "UK" "B" "s3"]⟩

/-- C9: duplicate detection is exact, case-sensitive string comparison:
two well-formed records whose `(source, title, link)` triples differ at
all — in particular, only in letter case — are both stored and both
returned. -/
theorem natural_key_exact_match (r1 r2 : UpdateItem)
    (h1 : wellFormed r1 = true) (h2 : wellFormed r2 = true)
    (hne : naturalKey r1 ≠ naturalKey r2) :
    (store_updates [] [r1, r2]).2 = [r1, r2]
    ∧ (store_updates [] [r1, r2]).1 = [r1, r2] := by
  have hi1 : insertOk [] r1 := ⟨h1, by simp [keyPresent]⟩
  have hkp2 : ¬ keyPresent [r1] r2 := by
    simp only [keyPresent, List.map_cons, List.map_nil, List.mem_singleton]
    intro heq
    exact hne heq.symm
  have hi2 : insertOk [r1] r2 := ⟨h2, hkp2⟩
  simp [store_updates, hi1, hi2]

/-- Witness for C9: two records whose sources differ only in letter
case are treated as distinct. -/
theorem natural_key_exact_match_witness :
    (wellFormed (demoItem "EU" "A" "s") = true
      ∧ wellFormed (demoItem "eu" "A" "s") = true
      ∧ naturalKey (demoItem "EU" "A" "s") ≠ naturalKey (demoItem "eu" "A" "s"))
    ∧ ((store_updates [] [demoItem "EU" "A" "s", demoItem "eu" "A" "s"]).2
          = [demoItem "EU" "A" "s", demoItem "eu" "A" "s"]
        ∧ (store_updates [] [demoItem "EU" "A" "s", demoItem "eu" "A" "s"]).1
          = [demoItem "EU" "A" "s", demoItem "eu" "A" "s"]) :=
  ⟨⟨by decide, by decide, by decide⟩,
   natural_key_exact_match (demoItem "EU" "A" "s") (demoItem "eu" "A" "s")
     (by decide) (by decide) (by decide)⟩

/-! ## Aggregator -/

theorem gather_foldl_eq (sources : List (String × Except String (List UpdateItem))) :
    ∀ acc, sources.foldl gatherStep acc
      = acc ++ (sources.map (fun p => producerContribution p.2)).flatten := by
  induction sources with
  | nil => intro acc; simp
  | cons p rest ih =>
    intro acc
    simp only [List.foldl_cons, List.map_cons, List.flatten_cons]
    rw [ih]
    cases hp : p.2 with
    | ok items => simp [gatherStep, hp, producerContribution, List.append_assoc]
    | error e => simp [gatherStep, hp, producerContribution]

/-- C4: `gather_updates` never raises (every producer runs inside
`try ... except Exception: continue`) and returns the concatenation, in
registration order, of each producer's contribution, a failing
producer's contribution being empty (`producerContribution`). -/
theorem gather_all_tolerates_failures
    (sources : List (String × Except String (List UpdateItem))) :
    gather_updates sources = (sources.map (fun p => producerContribution p.2)).flatten := by
  unfold gather_updates
  simpa using gather_foldl_eq sources []

/-- Witness for C4 at a registry whose middle producer raises. -/
theorem gather_all_tolerates_failures_witness :
    gather_updates
        [("EU", Except.ok [demoItem "EU" "A" "s1"]),
         ("IFRS", Except.error "boom"),
         ("UK", Except.ok [demoItem "UK" "B" "s3"])]
      = (([("EU", Except.ok [demoItem "EU" "A" "s1"]),
          ("IFRS", Except.error "boom"),
          ("UK", Except.ok [demoItem "UK" "B" "s3"])]).map
            (fun p => producerContribution p.2)).flatten :=
  gather_all_tolerates_failures _

/-! ## Notifier -/

/-- C8 amended: whenever `SMTP_PORT`, if set, parses as an integer (in
particular whenever it is unset, the default being `"0"`), `send_email`
never propagates an exception; with any of the five required variables
absent it returns without attempting transmission; and a transport
failure is caught and reported, never raised and never a send. -/
theorem send_email_no_raise (env : SmtpEnv) (transportOk : Bool)
    (hp : (pyInt? (env.port.getD "0")).isSome = true) :
    send_email env transportOk ≠ SendOutcome.raised
    ∧ ((env.host = none ∨ env.port = none ∨ env.user = none ∨ env.password = none
        ∨ env.recipients = none) → send_email env transportOk = SendOutcome.skipped)
    ∧ (transportOk = false →
        send_email env transportOk = SendOutcome.skipped
        ∨ send_email env transportOk = SendOutcome.reportedFailure) := by
  obtain ⟨n, hn⟩ := Option.isSome_iff_exists.mp hp
  refine ⟨?_, ?_, ?_⟩
  · simp only [send_email, hn]
    by_cases hc : (pyTruthy env.host && !(n == 0) && pyTruthy env.user
        && pyTruthy env.password && pyTruthy env.recipients) = true
    · rw [if_pos hc]
      cases transportOk <;> simp
    · rw [if_neg hc]
      simp
  · intro habs
    simp only [send_email, hn]
    have hc : (pyTruthy env.host && !(n == 0) && pyTruthy env.user
        && pyTruthy env.password && pyTruthy env.recipients) = false := by
      rcases habs with hh | hh | hh | hh | hh
      · simp [hh, pyTruthy]
      · rw [hh] at hn
        have h0 : pyInt? ((none : Option String).getD "0") = some 0 := rfl
        rw [h0] at hn
        have hn0 : n = 0 := by
          have := Option.some.inj hn
          omega
        subst hn0
        simp
      · simp [hh, pyTruthy]
      · simp [hh, pyTruthy]
      · simp [hh, pyTruthy]
    rw [hc]
    simp
  · intro ht
    subst ht
    simp only [send_email, hn]
    by_cases hc : (pyTruthy env.host && !(n == 0) && pyTruthy env.user
        && pyTruthy env.password && pyTruthy env.recipients) = true
    · rw [if_pos hc]
      simp
    · rw [if_neg hc]
      simp

/-- Witness for C8's amended statement with full credentials and a
failing transport. -/
theorem send_email_no_raise_witness :
    (pyInt? (demoEnv.port.getD "0")).isSome = true
    ∧ (send_email demoEnv false ≠ SendOutcome.raised
        ∧ ((demoEnv.host = none ∨ demoEnv.port = none ∨ demoEnv.user = none
            ∨ demoEnv.password = none ∨ demoEnv.recipients = none) →
              send_email demoEnv false = SendOutcome.skipped)
        ∧ (false = false →
              send_email demoEnv false = SendOutcome.skipped
              ∨ send_email demoEnv false = SendOutcome.reportedFailure)) :=
  ⟨by decide, send_email_no_raise demoEnv false (by decide)⟩

/-- C8 is false as stated: with `SMTP_HOST` absent (so a required
credential is missing) but `SMTP_PORT` set to the non-numeric string
`"abc"`, the line `port = int(os.environ.get("SMTP_PORT", "0"))` raises
an uncaught `ValueError` before the credential check runs, so
`send_email` raises instead of returning. -/
theorem send_email_counterexample :
    (SmtpEnv.mk none (some "abc") (some "user") (some "pw") (some "to@example.org")).host = none
    ∧ send_email (SmtpEnv.mk none (some "abc") (some "user") (some "pw") (some "to@example.org")) true
        = SendOutcome.raised :=
  ⟨rfl, by decide⟩

/-! ## Substring machinery for the renderers -/

theorem dataAppend (s t : String) : (s ++ t).data = s.data ++ t.data :=
  String.data_append s t

theorem substr_refl (x : String) : x.data <:+: x.data :=
  ⟨[], [], by simp⟩

theorem substr_append_right {x t : String} (s : String) (h : x.data <:+: t.data) :
    x.data <:+: (s ++ t).data := by
  obtain ⟨l, r, hh⟩ := h
  refine ⟨s.data ++ l, r, ?_⟩
  rw [dataAppend, ← hh]
  simp

theorem substr_append_left {x s : String} (t : String) (h : x.data <:+: s.data) :
    x.data <:+: (s ++ t).data := by
  obtain ⟨l, r, hh⟩ := h
  refine ⟨l, r ++ t.data, ?_⟩
  rw [dataAppend, ← hh]
  simp

theorem isInfix_trans {α : Type} {a b c : List α} (h1 : a <:+: b) (h2 : b <:+: c) :
    a <:+: c := by
  obtain ⟨l1, r1, e1⟩ := h1
  obtain ⟨l2, r2, e2⟩ := h2
  refine ⟨l2 ++ l1, r1 ++ r2, ?_⟩
  rw [← e2, ← e1]
  simp

theorem substr_joinLines {x : String} (l : List String) (h : x ∈ l) :
    x.data <:+: (joinLines l).data := by
  induction l with
  | nil => cases h
  | cons a rest ih =>
    rcases List.mem_cons.mp h with rfl | h'
    · cases rest with
      | nil => exact substr_refl x
      | cons b bs =>
        have hj : joinLines (x :: b :: bs) = x ++ "\n" ++ joinLines (b :: bs) := rfl
        rw [hj]
        exact substr_append_left _ (substr_append_left _ (substr_refl x))
    · cases rest with
      | nil => cases h'
      | cons b bs =>
        have hj : joinLines (a :: b :: bs) = a ++ "\n" ++ joinLines (b :: bs) := rfl
        rw [hj]
        exact substr_append_right _ (ih h')

theorem substr_concatAll {x : String} (l : List String) (h : x ∈ l) :
    x.data <:+: (concatAll l).data := by
  induction l with
  | nil => cases h
  | cons a rest ih =>
    rcases List.mem_cons.mp h with rfl | h'
    · exact substr_append_left _ (substr_refl x)
    · exact substr_append_right _ (ih h')

theorem ne_empty_of_substr {sub s : String} (hne : sub.data ≠ []) (h : sub.data <:+: s.data) :
    s ≠ "" := by
  obtain ⟨l, r, hh⟩ := h
  intro hs
  subst hs
  have : l ++ sub.data ++ r = [] := hh
  rcases List.append_eq_nil.mp this with ⟨h1, h2⟩
  rcases List.append_eq_nil.mp h1 with ⟨_, h3⟩
  exact hne h3

/-- The escaped text of any field contains no raw `<` and no raw `>`:
every input character is either replaced by an entity (whose characters
are angle-bracket free) or kept because it is not `&`, `<`, `>`. -/
theorem escapeHtml_no_angle (s : String) :
    ∀ c ∈ (escapeHtml s).data, c ≠ '<' ∧ c ≠ '>' := by
  unfold escapeHtml
  induction s.data with
  | nil => intro c hc; cases hc
  | cons a cs ih =>
    intro c hc
    simp only [List.map_cons, concatAll, dataAppend, List.mem_append] at hc
    rcases hc with hc | hc
    · by_cases h1 : a = '&'
      · rw [h1] at hc
        have hall : ∀ c ∈ (escapeChar '&').data, c ≠ '<' ∧ c ≠ '>' := by decide
        exact hall c hc
      · by_cases h2 : a = '<'
        · rw [h2] at hc
          have hall : ∀ c ∈ (escapeChar '<').data, c ≠ '<' ∧ c ≠ '>' := by decide
          exact hall c hc
        · by_cases h3 : a = '>'
          · rw [h3] at hc
            have hall : ∀ c ∈ (escapeChar '>').data, c ≠ '<' ∧ c ≠ '>' := by decide
            exact hall c hc
          · have he : escapeChar a = String.mk [a] := by
              unfold escapeChar
              rw [if_neg h1, if_neg h2, if_neg h3]
            rw [he] at hc
            have : c = a := by simpa using hc
            subst this
            exact ⟨h2, h3⟩
    · exact ih c hc

/-! ## Basic dashboard lemmas -/

theorem dashRowLine_summary (r : DbRow) :
    (escapeHtml r.summary).data <:+: (dashRowLine r).data := by
  unfold dashRowLine
  repeat first
    | exact substr_append_right _ (substr_refl _)
    | apply substr_append_left

theorem dashRowLine_title (r : DbRow) :
    r.title.data <:+: (dashRowLine r).data := by
  unfold dashRowLine
  repeat first
    | exact substr_append_right _ (substr_refl _)
    | apply substr_append_left

theorem dashRowLine_mem_dashLoop (rows : List DbRow) :
    ∀ cur r, r ∈ rows → dashRowLine r ∈ dashLoop cur rows := by
  induction rows with
  | nil => intro cur r h; cases h
  | cons a rest ih =>
    intro cur r h
    rcases List.mem_cons.mp h with rfl | h'
    · by_cases hc : some r.source ≠ cur <;> simp [dashLoop, hc]
    · have hr := ih (some a.source) r h'
      by_cases hc : some a.source ≠ cur <;> simp [dashLoop, hc, hr]

theorem substr_generate_dashboard {x : String} (now : String) (rows : List DbRow) (r : DbRow)
    (hr : r ∈ rows) (hx : x.data <:+: (dashRowLine r).data) :
    x.data <:+: (generate_dashboard now rows).data := by
  have hmem : dashRowLine r ∈ dashLines now rows := by
    have hl := dashRowLine_mem_dashLoop rows none r hr
    unfold dashLines
    simp [hl]
  exact isInfix_trans hx (substr_joinLines _ hmem)

/-! ## Professional HTML lemmas -/

theorem proCardMain_title (r : EnhancedRow) :
    (escapeHtml r.title).data <:+: (proCardMain r).data := by
  unfold proCardMain
  repeat first
    | exact substr_append_right _ (substr_refl _)
    | apply substr_append_left

theorem proCardMain_summary (r : EnhancedRow) :
    (escapeHtml r.summary).data <:+: (proCardMain r).data := by
  unfold proCardMain
  repeat first
    | exact substr_append_right _ (substr_refl _)
    | apply substr_append_left

theorem substr_proCard_of_main {x : String} (r : EnhancedRow)
    (h : x.data <:+: (proCardMain r).data) : x.data <:+: (proCard r).data := by
  unfold proCard
  exact substr_append_left _ (substr_append_left _ (substr_append_left _ h))

theorem substr_proCard_of_sectors {x : String} (r : EnhancedRow)
    (h : x.data <:+: (proSectorsBlock r).data) : x.data <:+: (proCard r).data := by
  unfold proCard
  exact substr_append_left _ (substr_append_right _ h)

theorem proSectorsBlock_tag (r : EnhancedRow)
    (hne : ¬ r.affected_sectors.data.isEmpty = true)
    (s0 : String) (hs : s0 ∈ pySplitChar ',' r.affected_sectors) :
    (proSectorTag (pyStrip s0)).data <:+: (proSectorsBlock r).data := by
  unfold proSectorsBlock
  rw [if_neg hne]
  have hmem : proSectorTag (pyStrip s0)
      ∈ (pySplitChar ',' r.affected_sectors).map (fun s => proSectorTag (pyStrip s)) :=
    List.mem_map_of_mem _ hs
  exact substr_append_left _ (substr_append_right _ (substr_concatAll _ hmem))

theorem substr_proLoop {x : String} (rows : List EnhancedRow) :
    ∀ cur r, r ∈ rows → x.data <:+: (proCard r).data →
      x.data <:+: (proLoop cur rows).data := by
  induction rows with
  | nil => intro cur r h; cases h
  | cons a rest ih =>
    intro cur r h hx
    rcases List.mem_cons.mp h with rfl | h'
    · show x.data <:+:
        ((if some r.source ≠ cur then proSourceHeader r else "") ++ proCard r
          ++ proLoop (some r.source) rest).data
      exact substr_append_left _ (substr_append_right _ hx)
    · show x.data <:+:
        ((if some a.source ≠ cur then proSourceHeader a else "") ++ proCard a
          ++ proLoop (some a.source) rest).data
      exact substr_append_right _ (ih (some a.source) r h' hx)

theorem substr_pro_html {x : String} (now : String) (rows : List EnhancedRow)
    (r : EnhancedRow) (hr : r ∈ rows) (hx : x.data <:+: (proCard r).data) :
    x.data <:+: (generate_professional_html now rows).data := by
  unfold generate_professional_html
  exact substr_append_left _ (substr_append_right _ (substr_proLoop rows none r hr hx))

theorem escapeChar_ne_nil (c : Char) : (escapeChar c).data ≠ [] := by
  unfold escapeChar
  by_cases h1 : c = '&'
  · rw [if_pos h1]; decide
  · rw [if_neg h1]
    by_cases h2 : c = '<'
    · rw [if_pos h2]; decide
    · rw [if_neg h2]
      by_cases h3 : c = '>'
      · rw [if_pos h3]; decide
      · rw [if_neg h3]; simp

theorem escapeHtml_ne_nil {s : String} (h : ¬ s.data.isEmpty = true) :
    ¬ (escapeHtml s).data.isEmpty = true := by
  cases hs : s.data with
  | nil => exact absurd (by rw [hs]; rfl) h
  | cons c cs =>
    unfold escapeHtml
    rw [hs]
    simp only [List.map_cons, concatAll, dataAppend]
    intro hemp
    have hz : (escapeChar c).data ++ (concatAll (cs.map escapeChar)).data = [] := by
      simpa using hemp
    exact escapeChar_ne_nil c (List.append_eq_nil.mp hz).1

theorem substr_proCard_of_changes {x : String} (r : EnhancedRow)
    (h : x.data <:+: (proChangesBlock r).data) : x.data <:+: (proCard r).data := by
  unfold proCard
  exact substr_append_left _ (substr_append_left _ (substr_append_right _ h))

theorem proChangesBlock_item (r : EnhancedRow)
    (hch : ¬ r.significant_changes.data.isEmpty = true)
    (c0 : String) (hc : c0 ∈ pySplitChar ';' r.significant_changes)
    (hcs : ¬ (pyStrip c0).data.isEmpty = true) :
    ("<li>" ++ escapeHtml (pyStrip c0) ++ "</li>").data <:+: (proChangesBlock r).data := by
  unfold proChangesBlock
  rw [if_neg hch]
  have hitem : proChangesItem c0 = "<li>" ++ escapeHtml (pyStrip c0) ++ "</li>" := by
    unfold proChangesItem
    rw [if_neg hcs]
  have hmem : "<li>" ++ escapeHtml (pyStrip c0) ++ "</li>"
      ∈ (pySplitChar ';' r.significant_changes).map proChangesItem := by
    rw [← hitem]
    exact List.mem_map_of_mem proChangesItem hc
  exact substr_append_left _ (substr_append_right _ (substr_concatAll _ hmem))

/-! ## Professional dashboard lemmas -/

theorem epdCardMain_title (r : EnhancedRow) :
    (escapeHtml r.title).data <:+: (epdCardMain r).data := by
  unfold epdCardMain
  repeat first
    | exact substr_append_right _ (substr_refl _)
    | apply substr_append_left

theorem epdCardMain_summary (r : EnhancedRow) :
    (escapeHtml r.summary).data <:+: (epdCardMain r).data := by
  unfold epdCardMain
  repeat first
    | exact substr_append_right _ (substr_refl _)
    | apply substr_append_left

theorem substr_epdCard_of_main {x : String} (r : EnhancedRow)
    (h : x.data <:+: (epdCardMain r).data) : x.data <:+: (epdCard r).data := by
  unfold epdCard
  exact substr_append_left _ (substr_append_left _ (substr_append_left _ h))

theorem substr_epdCard_of_changes {x : String} (r : EnhancedRow)
    (h : x.data <:+: (epdChangesBlock r).data) : x.data <:+: (epdCard r).data := by
  unfold epdCard
  exact substr_append_left _ (substr_append_left _ (substr_append_right _ h))

theorem substr_epdCard_of_sectors {x : String} (r : EnhancedRow)
    (h : x.data <:+: (epdSectorsBlock r).data) : x.data <:+: (epdCard r).data := by
  unfold epdCard
  exact substr_append_left _ (substr_append_right _ h)

theorem epdChangesBlock_whole (r : EnhancedRow)
    (hch : ¬ r.significant_changes.data.isEmpty = true) :
    (escapeHtml r.significant_changes).data <:+: (epdChangesBlock r).data := by
  have hsafe : epdSafeChanges r = escapeHtml r.significant_changes := by
    unfold epdSafeChanges
    rw [if_neg hch]
  have hne2 : ¬ (epdSafeChanges r).data.isEmpty = true := by
    rw [hsafe]
    exact escapeHtml_ne_nil hch
  unfold epdChangesBlock
  rw [if_neg hne2, hsafe]
  exact substr_append_left _ (substr_append_right _ (substr_refl _))

theorem epdSectorsBlock_tag (r : EnhancedRow)
    (hne : ¬ r.affected_sectors.data.isEmpty = true)
    (s0 : String) (hs : s0 ∈ pySplitChar ',' r.affected_sectors) :
    (proSectorTag (pyStrip s0)).data <:+: (epdSectorsBlock r).data := by
  unfold epdSectorsBlock
  rw [if_neg hne]
  have hmem : proSectorTag (pyStrip s0)
      ∈ (pySplitChar ',' r.affected_sectors).map (fun s => proSectorTag (pyStrip s)) :=
    List.mem_map_of_mem _ hs
  exact substr_append_left _ (substr_append_right _ (substr_concatAll _ hmem))

theorem substr_epdLoop {x : String} (rows : List EnhancedRow) :
    ∀ cur r, r ∈ rows → x.data <:+: (epdCard r).data →
      x.data <:+: (epdLoop cur rows).data := by
  induction rows with
  | nil => intro cur r h; cases h
  | cons a rest ih =>
    intro cur r h hx
    rcases List.mem_cons.mp h with rfl | h'
    · show x.data <:+:
        ((if some r.source ≠ cur then epdSourceHeader r else "") ++ epdCard r
          ++ epdLoop (some r.source) rest).data
      exact substr_append_left _ (substr_append_right _ hx)
    · show x.data <:+:
        ((if some a.source ≠ cur then epdSourceHeader a else "") ++ epdCard a
          ++ epdLoop (some a.source) rest).data
      exact substr_append_right _ (ih (some a.source) r h' hx)

theorem substr_epd_dashboard {x : String} (now : String) (rows : List EnhancedRow)
    (r : EnhancedRow) (hr : r ∈ rows) (hx : x.data <:+: (epdCard r).data) :
    x.data <:+: (generate_professional_dashboard now rows).data := by
  unfold generate_professional_dashboard
  exact substr_append_left _ (substr_append_right _ (substr_epdLoop rows none r hr hx))

/-! ## Claims about the renderers -/

/-- C6 amended: across the three HTML renderers the escaping chain is
applied to `summary` everywhere and to `title` in both professional
renderers; significant changes are escaped per stripped entry in
`generate_professional_html` and as one escaped block in
`generate_professional_dashboard`; and escaped text contains no raw `<`
or `>`.  But the basic `generate_dashboard` embeds `title` verbatim,
and both professional renderers embed every (stripped) sector name
verbatim, so those fields can put raw `<` and `>` into the rendered
markup. -/
theorem html_escaping_partial (now : String) (rows : List DbRow)
    (erows : List EnhancedRow) (r : DbRow) (er : EnhancedRow)
    (hr : r ∈ rows) (her : er ∈ erows) :
    (∀ s : String, ∀ c ∈ (escapeHtml s).data, c ≠ '<' ∧ c ≠ '>')
    ∧ (escapeHtml r.summary).data <:+: (generate_dashboard now rows).data
    ∧ r.title.data <:+: (generate_dashboard now rows).data
    ∧ (escapeHtml er.title).data <:+: (generate_professional_html now erows).data
    ∧ (escapeHtml er.summary).data <:+: (generate_professional_html now erows).data
    ∧ (¬ er.significant_changes.data.isEmpty = true →
        ∀ c0 ∈ pySplitChar ';' er.significant_changes,
          ¬ (pyStrip c0).data.isEmpty = true →
            ("<li>" ++ escapeHtml (pyStrip c0) ++ "</li>").data
              <:+: (generate_professional_html now erows).data)
    ∧ (¬ er.affected_sectors.data.isEmpty = true →
        ∀ s0 ∈ pySplitChar ',' er.affected_sectors,
          (proSectorTag (pyStrip s0)).data <:+: (generate_professional_html now erows).data)
    ∧ (escapeHtml er.title).data <:+: (generate_professional_dashboard now erows).data
    ∧ (escapeHtml er.summary).data <:+: (generate_professional_dashboard now erows).data
    ∧ (¬ er.significant_changes.data.isEmpty = true →
        (escapeHtml er.significant_changes).data
          <:+: (generate_professional_dashboard now erows).data)
    ∧ (¬ er.affected_sectors.data.isEmpty = true →
        ∀ s0 ∈ pySplitChar ',' er.affected_sectors,
          (proSectorTag (pyStrip s0)).data
            <:+: (generate_professional_dashboard now erows).data) := by
  refine ⟨escapeHtml_no_angle, ?_, ?_, ?_, ?_, ?_, ?_, ?_, ?_, ?_, ?_⟩
  · exact substr_generate_dashboard now rows r hr (dashRowLine_summary r)
  · exact substr_generate_dashboard now rows r hr (dashRowLine_title r)
  · exact substr_pro_html now erows er her (substr_proCard_of_main er (proCardMain_title er))
  · exact substr_pro_html now erows er her (substr_proCard_of_main er (proCardMain_summary er))
  · intro hch c0 hc hcs
    exact substr_pro_html now erows er her
      (substr_proCard_of_changes er (proChangesBlock_item er hch c0 hc hcs))
  · intro hne s0 hs
    exact substr_pro_html now erows er her
      (substr_proCard_of_sectors er (proSectorsBlock_tag er hne s0 hs))
  · exact substr_epd_dashboard now erows er her (substr_epdCard_of_main er (epdCardMain_title er))
  · exact substr_epd_dashboard now erows er her
      (substr_epdCard_of_main er (epdCardMain_summary er))
  · intro hch
    exact substr_epd_dashboard now erows er her
      (substr_epdCard_of_changes er (epdChangesBlock_whole er hch))
  · intro hne s0 hs
    exact substr_epd_dashboard now erows er her
      (substr_epdCard_of_sectors er (epdSectorsBlock_tag er hne s0 hs))

/-- Witness for C6's amended statement at concrete rows. -/
theorem html_escaping_partial_witness :
    (c6Row ∈ [c6Row] ∧ c6Erow ∈ [c6Erow])
    ∧ ((∀ s : String, ∀ c ∈ (escapeHtml s).data, c ≠ '<' ∧ c ≠ '>')
        ∧ (escapeHtml c6Row.summary).data <:+: (generate_dashboard c7Now [c6Row]).data
        ∧ c6Row.title.data <:+: (generate_dashboard c7Now [c6Row]).data
        ∧ (escapeHtml c6Erow.title).data <:+: (generate_professional_html c7Now [c6Erow]).data
        ∧ (escapeHtml c6Erow.summary).data <:+: (generate_professional_html c7Now [c6Erow]).data
        ∧ (¬ c6Erow.significant_changes.data.isEmpty = true →
            ∀ c0 ∈ pySplitChar ';' c6Erow.significant_changes,
              ¬ (pyStrip c0).data.isEmpty = true →
                ("<li>" ++ escapeHtml (pyStrip c0) ++ "</li>").data
                  <:+: (generate_professional_html c7Now [c6Erow]).data)
        ∧ (¬ c6Erow.affected_sectors.data.isEmpty = true →
            ∀ s0 ∈ pySplitChar ',' c6Erow.affected_sectors,
              (proSectorTag (pyStrip s0)).data
                <:+: (generate_professional_html c7Now [c6Erow]).data)
        ∧ (escapeHtml c6Erow.title).data
            <:+: (generate_professional_dashboard c7Now [c6Erow]).data
        ∧ (escapeHtml c6Erow.summary).data
            <:+: (generate_professional_dashboard c7Now [c6Erow]).data
        ∧ (¬ c6Erow.significant_changes.data.isEmpty = true →
            (escapeHtml c6Erow.significant_changes).data
              <:+: (generate_professional_dashboard c7Now [c6Erow]).data)
        ∧ (¬ c6Erow.affected_sectors.data.isEmpty = true →
            ∀ s0 ∈ pySplitChar ',' c6Erow.affected_sectors,
              (proSectorTag (pyStrip s0)).data
                <:+: (generate_professional_dashboard c7Now [c6Erow]).data)) :=
  ⟨⟨by simp, by simp⟩,
   html_escaping_partial c7Now [c6Row] [c6Erow] c6Row c6Erow (by simp) (by simp)⟩

theorem isInfix_of_isPrefix {α : Type} {a b : List α} (h : a <+: b) : a <:+: b := by
  obtain ⟨t, ht⟩ := h
  exact ⟨[], t, by simp [ht]⟩

theorem isInfix_cons_extend {α : Type} {x : α} {sub l : List α} (h : sub <:+: l) :
    sub <:+: x :: l := by
  obtain ⟨p, q, hh⟩ := h
  exact ⟨x :: p, q, by simp [hh]⟩

/-- A prefix occurrence that avoids the separator `c` lies entirely in
the part before the first `c`. -/
theorem prefix_stops_before_sep {α : Type} {sub : List α} {c : α} :
    ∀ {l₁ l₂ : List α}, c ∉ sub → sub <+: l₁ ++ c :: l₂ → sub <+: l₁ := by
  induction sub with
  | nil => intro l₁ l₂ _ _; exact List.nil_prefix
  | cons x xs ih =>
    intro l₁ l₂ hc h
    cases l₁ with
    | nil =>
      rw [List.nil_append, List.cons_prefix_cons] at h
      exact absurd (h.1 ▸ List.mem_cons_self x xs) hc
    | cons a as =>
      rw [List.cons_append, List.cons_prefix_cons] at h
      rw [List.cons_prefix_cons]
      exact ⟨h.1, ih (fun hm => hc (List.mem_cons_of_mem x hm)) h.2⟩

/-- An occurrence that avoids the separator `c` lies entirely on one
side of it. -/
theorem isInfix_split_at_sep {α : Type} {sub l₂ : List α} {c : α} (hc : c ∉ sub) :
    ∀ (p q l₁ : List α), p ++ sub ++ q = l₁ ++ c :: l₂ →
      sub <:+: l₁ ∨ sub <:+: l₂ := by
  intro p
  induction p with
  | nil =>
    intro q l₁ hh
    left
    have hpre : sub <+: l₁ ++ c :: l₂ := ⟨q, by simpa using hh⟩
    exact isInfix_of_isPrefix (prefix_stops_before_sep hc hpre)
  | cons x p' ih =>
    intro q l₁ hh
    cases l₁ with
    | nil =>
      right
      have hh' : x :: (p' ++ sub ++ q) = c :: l₂ := by simpa using hh
      exact ⟨p', q, (List.cons.inj hh').2⟩
    | cons a as =>
      have hh' : x :: (p' ++ sub ++ q) = a :: (as ++ c :: l₂) := by simpa using hh
      rcases ih q as (List.cons.inj hh').2 with hL | hR
      · exact Or.inl (isInfix_cons_extend hL)
      · exact Or.inr hR

/-- A newline-free substring of `"\n".join(lines)` occurs inside one of
the lines. -/
theorem substr_joinLines_split {sub : String} (hne : sub.data ≠ [])
    (hnl : ¬ '\n' ∈ sub.data) :
    ∀ lines : List String, sub.data <:+: (joinLines lines).data →
      ∃ l ∈ lines, sub.data <:+: l.data := by
  intro lines
  induction lines with
  | nil =>
    intro h
    obtain ⟨p, q, hh⟩ := h
    exfalso
    apply hne
    have hz : p ++ sub.data ++ q = [] := hh
    rcases List.append_eq_nil.mp hz with ⟨h1, _⟩
    exact (List.append_eq_nil.mp h1).2
  | cons a rest ih =>
    intro h
    cases rest with
    | nil => exact ⟨a, by simp, h⟩
    | cons b bs =>
      have hj : (joinLines (a :: b :: bs)).data
          = a.data ++ '\n' :: (joinLines (b :: bs)).data := by
        show ((a ++ "\n") ++ joinLines (b :: bs)).data = _
        rw [dataAppend, dataAppend]
        simp
      rw [hj] at h
      obtain ⟨p, q, hh⟩ := h
      rcases isInfix_split_at_sep hnl p q a.data hh with hL | hR
      · exact ⟨a, by simp, hL⟩
      · obtain ⟨l, hl, hsub⟩ := ih hR
        exact ⟨l, by simp [hl], hsub⟩

/-- A newline-free, nonempty string that occurs in no line does not
occur in the joined text. -/
theorem not_substr_joinLines {sub : String} (lines : List String) (hne : sub.data ≠ [])
    (hnl : ¬ '\n' ∈ sub.data) (hall : ∀ l ∈ lines, ¬ (sub.data <:+: l.data)) :
    ¬ (sub.data <:+: (joinLines lines).data) := by
  intro h
  obtain ⟨l, hl, hsub⟩ := substr_joinLines_split hne hnl lines h
  exact hall l hl hsub

/-- C6 is false as stated: a record whose title is
`<script>alert(1)</script>` renders in the basic dashboard with the raw
`<script>` text (and without the entity-escaped `&lt;script&gt;` form),
and a record whose affected-sectors list contains `<b>bold</b>` renders
both in the professional HTML email and in the professional dashboard
as a sector tag with the raw markup. -/
theorem html_escaping_counterexample :
    ("<script>").data <:+: (generate_dashboard c7Now [c6Row]).data
    ∧ ¬ (("&lt;script&gt;").data <:+: (generate_dashboard c7Now [c6Row]).data)
    ∧ ("<span class=\"sector-tag\"><b>bold</b></span>").data
        <:+: (generate_professional_html c7Now [c6Erow]).data
    ∧ ("<span class=\"sector-tag\"><b>bold</b></span>").data
        <:+: (generate_professional_dashboard c7Now [c6Erow]).data := by
  have hs : "<b>bold</b>" ∈ pySplitChar ',' c6Erow.affected_sectors := by decide
  have hne : ¬ c6Erow.affected_sectors.data.isEmpty = true := by decide
  have h0 : proSectorTag (pyStrip "<b>bold</b>")
      = "<span class=\"sector-tag\"><b>bold</b></span>" := rfl
  have h1 := substr_pro_html c7Now [c6Erow] c6Erow (by simp)
    (substr_proCard_of_sectors c6Erow (proSectorsBlock_tag c6Erow hne "<b>bold</b>" hs))
  have h2 := substr_epd_dashboard c7Now [c6Erow] c6Erow (by simp)
    (substr_epdCard_of_sectors c6Erow (epdSectorsBlock_tag c6Erow hne "<b>bold</b>" hs))
  rw [h0] at h1 h2
  exact ⟨by decide, not_substr_joinLines _ (by decide) (by decide) (by decide), h1, h2⟩

/-- C7 amended: given the empty record sequence, both
`generate_plain_text_email` and the basic `generate_dashboard` return a
non-empty, well-formed report (header and closing banners; complete
HTML document) without raising — but the report carries no "no updates"
indicator (see the counterexample). -/
theorem empty_render_nonempty (now : String) :
    generate_plain_text_email now [] ≠ ""
    ∧ ("SUSTAINABILITY REGULATORY UPDATES").data
        <:+: (generate_plain_text_email now []).data
    ∧ ("End of Report").data <:+: (generate_plain_text_email now []).data
    ∧ generate_dashboard now [] ≠ ""
    ∧ ("<!DOCTYPE html>").data <:+: (generate_dashboard now []).data
    ∧ ("</html>").data <:+: (generate_dashboard now []).data := by
  have h1 : ("SUSTAINABILITY REGULATORY UPDATES").data
      <:+: (generate_plain_text_email now []).data := by
    unfold generate_plain_text_email
    exact substr_joinLines _ (by simp [pteLines, pteLoop])
  have h2 : ("End of Report").data <:+: (generate_plain_text_email now []).data := by
    unfold generate_plain_text_email
    exact substr_joinLines _ (by simp [pteLines, pteLoop])
  have h3 : ("<!DOCTYPE html>").data <:+: (generate_dashboard now []).data := by
    unfold generate_dashboard
    exact substr_joinLines _ (by simp [dashLines, dashLoop])
  have h4 : ("</html>").data <:+: (generate_dashboard now []).data := by
    unfold generate_dashboard
    exact substr_joinLines _ (by simp [dashLines, dashLoop])
  exact ⟨ne_empty_of_substr (by decide) h2, h1, h2,
         ne_empty_of_substr (by decide) h4, h3, h4⟩

/-- C7 is false as stated: at the empty record sequence (and a fixed
timestamp) neither renderer's output contains any "no updates" style
indicator — no `o update`, `O UPDATE`, `o new` or `O NEW` substring
occurs (ruling out "No updates", "no updates", "NO UPDATES",
"No new updates" and their variants), although the output is non-empty.
(The `No new updates were detected today.` message exists only in the
notifier's `compose_email`, which is not a renderer.) -/
theorem empty_render_counterexample :
    generate_plain_text_email c7Now [] ≠ ""
    ∧ ¬ (("o update").data <:+: (generate_plain_text_email c7Now []).data)
    ∧ ¬ (("O UPDATE").data <:+: (generate_plain_text_email c7Now []).data)
    ∧ ¬ (("o new").data <:+: (generate_plain_text_email c7Now []).data)
    ∧ ¬ (("O NEW").data <:+: (generate_plain_text_email c7Now []).data)
    ∧ generate_dashboard c7Now [] ≠ ""
    ∧ ¬ (("o update").data <:+: (generate_dashboard c7Now []).data)
    ∧ ¬ (("O UPDATE").data <:+: (generate_dashboard c7Now []).data)
    ∧ ¬ (("o new").data <:+: (generate_dashboard c7Now []).data)
    ∧ ¬ (("O NEW").data <:+: (generate_dashboard c7Now []).data) := by
  refine ⟨by decide,
    not_substr_joinLines _ (by decide) (by decide) (by decide),
    not_substr_joinLines _ (by decide) (by decide) (by decide),
    not_substr_joinLines _ (by decide) (by decide) (by decide),
    not_substr_joinLines _ (by decide) (by decide) (by decide),
    by decide,
    not_substr_joinLines _ (by decide) (by decide) (by decide),
    not_substr_joinLines _ (by decide) (by decide) (by decide),
    not_substr_joinLines _ (by decide) (by decide) (by decide),
    not_substr_joinLines _ (by decide) (by decide) (by decide)⟩

/-! ## Impact statistics -/

theorem impactCount_cons (a : EnhancedRow) (t : List EnhancedRow) (lvl : String) :
    impactCount (a :: t) lvl
      = (if a.impact_level = lvl then 1 else 0) + impactCount t lvl := by
  by_cases h : a.impact_level = lvl
  · simp [impactCount, List.filter_cons, h]
    omega
  · simp [impactCount, List.filter_cons, h]

theorem impact_bucket_core (rows : List EnhancedRow) :
    impactCount rows "High" + impactCount rows "Medium" + impactCount rows "Low" ≤ rows.length
    ∧ (impactCount rows "High" + impactCount rows "Medium" + impactCount rows "Low" = rows.length
        ↔ ∀ r ∈ rows, r.impact_level = "High" ∨ r.impact_level = "Medium"
            ∨ r.impact_level = "Low") := by
  induction rows with
  | nil => simp [impactCount]
  | cons a t ih =>
    obtain ⟨ih1, ih2⟩ := ih
    rw [impactCount_cons, impactCount_cons, impactCount_cons, List.length_cons,
      List.forall_mem_cons]
    by_cases hH : a.impact_level = "High"
    · have hM : a.impact_level ≠ "Medium" := by rw [hH]; decide
      have hL : a.impact_level ≠ "Low" := by rw [hH]; decide
      rw [if_pos hH, if_neg hM, if_neg hL]
      refine ⟨by omega, ?_, ?_⟩
      · intro heq
        exact ⟨Or.inl hH, ih2.mp (by omega)⟩
      · rintro ⟨_, hall⟩
        have := ih2.mpr hall
        omega
    · by_cases hM : a.impact_level = "Medium"
      · have hL : a.impact_level ≠ "Low" := by rw [hM]; decide
        rw [if_pos hM, if_neg hH, if_neg hL]
        refine ⟨by omega, ?_, ?_⟩
        · intro heq
          exact ⟨Or.inr (Or.inl hM), ih2.mp (by omega)⟩
        · rintro ⟨_, hall⟩
          have := ih2.mpr hall
          omega
      · by_cases hL : a.impact_level = "Low"
        · rw [if_pos hL, if_neg hH, if_neg hM]
          refine ⟨by omega, ?_, ?_⟩
          · intro heq
            exact ⟨Or.inr (Or.inr hL), ih2.mp (by omega)⟩
          · rintro ⟨_, hall⟩
            have := ih2.mpr hall
            omega
        · rw [if_neg hH, if_neg hM, if_neg hL]
          refine ⟨by omega, ?_, ?_⟩
          · intro heq
            exact absurd heq (by omega)
          · rintro ⟨hhead, _⟩
            rcases hhead with hh | hh | hh
            · exact absurd hh hH
            · exact absurd hh hM
            · exact absurd hh hL

/-- C10: in the impact statistics of every report, a stored row whose
`impact_level` is not exactly `"High"`, `"Medium"` or `"Low"` falls into
none of the three buckets, so the bucket counts sum to at most the total
row count, with equality exactly when every row's `impact_level` is one
of the three literals. -/
theorem impact_bucket_stats (rows : List EnhancedRow) :
    impactCount rows "High" + impactCount rows "Medium" + impactCount rows "Low" ≤ rows.length
    ∧ (impactCount rows "High" + impactCount rows "Medium" + impactCount rows "Low" = rows.length
        ↔ ∀ r ∈ rows, r.impact_level = "High" ∨ r.impact_level = "Medium"
            ∨ r.impact_level = "Low")
    ∧ (∀ r ∈ rows, r.impact_level ≠ "High" → r.impact_level ≠ "Medium" →
        r.impact_level ≠ "Low" →
        ∀ lvl, (lvl = "High" ∨ lvl = "Medium" ∨ lvl = "Low") →
          r ∉ rows.filter (fun x => decide (x.impact_level = lvl))) := by
  obtain ⟨h1, h2⟩ := impact_bucket_core rows
  refine ⟨h1, h2, ?_⟩
  intro r _ hH hM hL lvl hlvl hmem
  have hpred := (List.mem_filter.mp hmem).2
  have heq : r.impact_level = lvl := by simpa using hpred
  rcases hlvl with rfl | rfl | rfl
  · exact hH heq
  · exact hM heq
  · exact hL heq

end Sustainability
